import Mathlib

/-!
Shallow embedding of the geometric placement engine of the VirtualBricks
repository: the part catalog (`BrickRegistry`), grid snapping and snap
resolution (`SnapDetector`), collision checking, the connection store
(`ConnectionManager`) and the LDraw exporter (`LDrawExporter`).

Numbers: the source uses JavaScript floats; the embedding uses exact
rationals (`ℚ`), with decimal literals such as `3.2` rendered as the exact
rational `16/5`.  JavaScript's `Math.round` (round half toward +∞) is
`jsRound`, and the sign-of-dividend remainder operator `%` is `jsMod`.
Transcendental functions (`Math.cos`, `Math.sin`, `Math.sqrt`, `Math.PI`)
have no exact rational counterpart; the embedding abstracts them as a
`NumOracle` parameter threaded through every function that uses them,
exactly where the source calls them.  Universal theorems quantify over the
oracle; concrete scenarios use `oracle0`, which is exact at the arguments
those scenarios produce (rotation angle 0 and radicand 0).
-/

/- The Batteries rational primitives are `@[irreducible]`, which blocks
the elaborator-level evaluation `decide` relies on.  Restoring their
default reducibility for this file lets closed scenarios evaluate; the
kernel never consulted the attribute, so checked proofs are unaffected. -/
set_option allowUnsafeReducibility true
attribute [local semireducible] Rat.add Rat.mul Rat.inv Rat.sub

/- Closed scenarios evaluate the embedded functions on the full default
part registry, which needs a deeper elaborator recursion budget. -/
set_option maxRecDepth 100000

/-- JavaScript truncation toward zero of a rational (`Math.trunc`). -/
def ratTrunc (q : ℚ) : ℤ := q.num / (q.den : ℤ)

/-- JavaScript `%` on numbers: remainder with the sign of the dividend,
`a % b = a - b * trunc (a / b)`. -/
def jsMod (a b : ℚ) : ℚ := a - b * (ratTrunc (a / b) : ℚ)

/-- JavaScript `Math.round`: round half toward positive infinity
(`Rat.floor` is the kernel-computable floor; see `jsRound_eq_floor`). -/
def jsRound (q : ℚ) : ℤ := (q + 1/2).floor

/-- JavaScript `Math.abs`. -/
def jsAbs (q : ℚ) : ℚ := if q < 0 then -q else q

/-- A 3D vector / point with rational coordinates, embedding the source's
`{ x, y, z }` records. -/
structure Vec3 where
  x : ℚ
  y : ℚ
  z : ℚ
deriving DecidableEq

/-- Oracle for the transcendental operations the source takes from
JavaScript's `Math`.  Kept abstract so that theorems about the geometric
code hold for any interpretation of `cos`, `sin`, `sqrt` and `PI`. -/
structure NumOracle where
  cos : ℚ → ℚ
  sin : ℚ → ℚ
  sqrt : ℚ → ℚ
  pi : ℚ

/-- Concrete oracle used for closed scenarios.  All concrete scenarios in
this file rotate by 0 and take square roots of 0 only, where these values
are exact: `cos 0 = 1`, `sin 0 = 0`, `Rat.sqrt 0 = 0`, and any value of
`pi` in `(0.02, ∞)` makes the 90°-rotation test behave as with the real π
at angle 0. -/
def oracle0 : NumOracle where
  cos := fun q => if q = 0 then 1 else 0
  sin := fun _ => 0
  sqrt := Rat.sqrt
  pi := 314159/100000

namespace LEGO

/-- Stud spacing (8mm) — distance between stud centers. -/
def STUD_SPACING : ℚ := 8

/-- Stud height (1.6mm) — protruding height. -/
def STUD_HEIGHT : ℚ := 8/5

/-- Plate height (3.2mm) — without studs. -/
def PLATE_HEIGHT : ℚ := 16/5

/-- Brick height (9.6mm) — equals 3 plates. -/
def BRICK_HEIGHT : ℚ := 48/5

end LEGO

namespace LDU

/-- LDU per millimeter (2.5). -/
def LDU_PER_MM : ℚ := 5/2

end LDU

/-- `SnapDetector.isRotated90Degrees` / `collision.isRotated90Degrees`:
normalize the yaw into `[0, 2π)` with JavaScript `%`, then test closeness
to π/2 or 3π/2 within tolerance 0.01. -/
def isRotated90Degrees (T : NumOracle) (rotationY : ℚ) : Bool :=
  let normalized := jsMod (jsMod rotationY (2 * T.pi) + 2 * T.pi) (2 * T.pi)
  decide (jsAbs (normalized - T.pi / 2) < 1/100) ||
    decide (jsAbs (normalized - (3 * T.pi) / 2) < 1/100)

/-- `SnapDetector.snapToGridWithDimensions`: snap a position to the brick
grid, swapping width/depth under ~90° yaw, with a half-stud offset on an
axis whose effective stud count is even. -/
def snapToGridWithDimensions (T : NumOracle) (position : Vec3)
    (widthStuds depthStuds : ℕ) (rotationY : ℚ) : Vec3 :=
  let halfStud := LEGO.STUD_SPACING / 2
  let rotated := isRotated90Degrees T rotationY
  let effectiveWidth := if rotated then depthStuds else widthStuds
  let effectiveDepth := if rotated then widthStuds else depthStuds
  let xOffset := if effectiveWidth % 2 = 0 then halfStud else 0
  let zOffset := if effectiveDepth % 2 = 0 then halfStud else 0
  { x := (jsRound ((position.x - xOffset) / LEGO.STUD_SPACING) : ℚ) *
           LEGO.STUD_SPACING + xOffset
    y := (jsRound (position.y / LEGO.PLATE_HEIGHT) : ℚ) * LEGO.PLATE_HEIGHT
    z := (jsRound ((position.z - zOffset) / LEGO.STUD_SPACING) : ℚ) *
           LEGO.STUD_SPACING + zOffset }

/-- Modelled from the spec's words (§4.3 Grid & Alignment), for comparison
with `snapToGridWithDimensions`: width and depth are swapped exactly when
the yaw, normalized into `[0, 2π)`, is within a small tolerance of 90° or
270°; each horizontal axis uses an offset of half the 8mm stud spacing
when the effective stud count on that axis is even and zero when odd, and
returns `round((raw − offset) / 8) × 8 + offset`; Y is always rounded to
the nearest multiple of the 3.2mm plate height with zero offset. -/
def specGridSnap (T : NumOracle) (position : Vec3)
    (widthStuds depthStuds : ℕ) (rotationY : ℚ) : Vec3 :=
  let normalized := jsMod (jsMod rotationY (2 * T.pi) + 2 * T.pi) (2 * T.pi)
  let swap := decide (jsAbs (normalized - T.pi / 2) < 1/100) ||
    decide (jsAbs (normalized - (3 * T.pi) / 2) < 1/100)
  let effW := if swap then depthStuds else widthStuds
  let effD := if swap then widthStuds else depthStuds
  let xOffset := if effW % 2 = 0 then (8 : ℚ) / 2 else 0
  let zOffset := if effD % 2 = 0 then (8 : ℚ) / 2 else 0
  { x := (jsRound ((position.x - xOffset) / 8) : ℚ) * 8 + xOffset
    y := (jsRound (position.y / (16/5)) : ℚ) * (16/5)
    z := (jsRound ((position.z - zOffset) / 8) : ℚ) * 8 + zOffset }

/-! ## Part catalog (`src/types`, `BrickRegistry.ts`) -/

/-- Connection point types (`ConnectionPointType` in `src/types`). -/
inductive ConnectionPointType where
  | stud
  | anti_stud
  | axle_hole
  | pin_hole
  | axle
  | pin
deriving DecidableEq

/-- A connection point on a part (`ConnectionPoint` in `src/types`):
local position in millimeters, outward normal, optional diameter. -/
structure ConnectionPoint where
  type : ConnectionPointType
  position : Vec3
  direction : Vec3
  size : Option ℚ := none
deriving DecidableEq

/-- Brick categories (`BrickCategory`). -/
inductive BrickCategory where
  | basic
  | slope
  | round
  | technic
  | special
  | minifig
  | decoration
deriving DecidableEq

/-- Shape kinds (`BrickShape`). -/
inductive BrickShape where
  | box
  | slope
  | slope_inverted
  | round
  | cylinder
  | cone
  | wedge
  | arch
deriving DecidableEq

/-- Slope directions (`ShapeParams.slopeDirection`). -/
inductive SlopeDirection where
  | front
  | back
  | left
  | right
deriving DecidableEq

/-- Shape-specific parameters (`ShapeParams`). -/
structure ShapeParams where
  slopeAngle : Option ℚ := none
  slopeDirection : Option SlopeDirection := none
  hollow : Option Bool := none
  archInnerRadius : Option ℚ := none
deriving DecidableEq

/-- Part dimensions in stud / plate units (`BrickDefinition.dimensions`). -/
structure Dimensions where
  width : ℕ
  height : ℕ
  depth : ℕ
deriving DecidableEq

/-- Collider primitives (`ColliderShape`). -/
structure ColliderShape where
  type : String
  halfExtents : Option Vec3 := none
  radius : Option ℚ := none
  height : Option ℚ := none
  offset : Option Vec3 := none
deriving DecidableEq

/-- A static part definition (`BrickDefinition` in `src/types`).  The
render-cache field `geometry` (a Three.js buffer) and `centerOfMass` are
never read by the components under verification and are omitted. -/
structure BrickDefinition where
  id : String
  ldrawId : String
  name : String
  category : BrickCategory
  shape : Option BrickShape := none
  shapeParams : Option ShapeParams := none
  dimensions : Dimensions
  connectionPoints : List ConnectionPoint
  colliderShapes : List ColliderShape
  mass : Option ℚ := none
deriving DecidableEq

/-- A placed part (`BrickInstance` in `src/types`). -/
structure BrickInstance where
  id : String
  definitionId : String
  position : Vec3
  rotation : Vec3
  colorId : ℤ
  isSelected : Bool
  isLocked : Bool
  isGhost : Bool
  connections : List String
  isStatic : Bool
  stepIndex : Option ℕ := none
  groupId : Option String := none
deriving DecidableEq

/-- Serialized part record (`BrickData` in `src/types`). -/
structure BrickData where
  id : String
  definitionId : String
  position : Vec3
  rotation : Vec3
  colorId : ℤ
  stepIndex : Option ℕ := none
  groupId : Option String := none
deriving DecidableEq

/-- Insertion-ordered string-keyed map, embedding a JavaScript `Map`:
`set` overwrites in place or appends. -/
def mapSet {α : Type} (m : List (String × α)) (k : String) (v : α) :
    List (String × α) :=
  if m.any (fun p => p.1 = k) then
    m.map (fun p => if p.1 = k then (k, v) else p)
  else m ++ [(k, v)]

/-- JavaScript `Map.get`. -/
def mapGet {α : Type} (m : List (String × α)) (k : String) : Option α :=
  (m.find? (fun p => p.1 = k)).map (fun p => p.2)

namespace BrickRegistry

/-- `BrickRegistryClass.generateStudConnections`: one stud per top grid
cell and one anti-stud per bottom grid cell. -/
def generateStudConnections (width depth height : ℕ) :
    List ConnectionPoint :=
  let heightMM := (height : ℚ) * LEGO.PLATE_HEIGHT
  let studs := (List.range width).flatMap (fun x =>
    (List.range depth).map (fun z =>
      { type := ConnectionPointType.stud
        position := { x := ((x : ℚ) + 1/2 - (width : ℚ) / 2) * LEGO.STUD_SPACING
                      y := heightMM
                      z := ((z : ℚ) + 1/2 - (depth : ℚ) / 2) * LEGO.STUD_SPACING }
        direction := { x := 0, y := 1, z := 0 } }))
  let antiStuds := (List.range width).flatMap (fun x =>
    (List.range depth).map (fun z =>
      { type := ConnectionPointType.anti_stud
        position := { x := ((x : ℚ) + 1/2 - (width : ℚ) / 2) * LEGO.STUD_SPACING
                      y := 0
                      z := ((z : ℚ) + 1/2 - (depth : ℚ) / 2) * LEGO.STUD_SPACING }
        direction := { x := 0, y := -1, z := 0 } }))
  studs ++ antiStuds

/-- `BrickRegistryClass.generateBasicCollider`. -/
def generateBasicCollider (width depth height : ℕ) : List ColliderShape :=
  let widthMM := (width : ℚ) * LEGO.STUD_SPACING
  let depthMM := (depth : ℚ) * LEGO.STUD_SPACING
  let heightMM := (height : ℚ) * LEGO.PLATE_HEIGHT
  [{ type := "cuboid"
     halfExtents := some { x := widthMM / 2, y := heightMM / 2, z := depthMM / 2 }
     offset := some { x := 0, y := heightMM / 2, z := 0 } }]

/-- `BrickRegistryClass.createBasicBrick`. -/
def createBasicBrick (id ldrawId name : String)
    (width depth heightInPlates : ℕ) : BrickDefinition :=
  { id := id, ldrawId := ldrawId, name := name
    category := BrickCategory.basic
    dimensions := { width := width, depth := depth, height := heightInPlates }
    connectionPoints := generateStudConnections width depth heightInPlates
    colliderShapes := generateBasicCollider width depth heightInPlates
    mass := some ((width : ℚ) * (depth : ℚ) * (heightInPlates : ℚ) * (1/2)) }

/-- `BrickRegistryClass.generateSlopeConnections`: studs only on the flat
row, anti-studs with full coverage. -/
def generateSlopeConnections (width depth height : ℕ)
    (direction : SlopeDirection) : List ConnectionPoint :=
  let heightMM := (height : ℚ) * LEGO.PLATE_HEIGHT
  let studs :=
    match direction with
    | SlopeDirection.front =>
      (List.range width).map (fun x =>
        { type := ConnectionPointType.stud
          position := { x := ((x : ℚ) + 1/2 - (width : ℚ) / 2) * LEGO.STUD_SPACING
                        y := heightMM
                        z := (1/2 - (depth : ℚ) / 2) * LEGO.STUD_SPACING }
          direction := { x := 0, y := 1, z := 0 } })
    | SlopeDirection.back =>
      (List.range width).map (fun x =>
        { type := ConnectionPointType.stud
          position := { x := ((x : ℚ) + 1/2 - (width : ℚ) / 2) * LEGO.STUD_SPACING
                        y := heightMM
                        z := ((depth : ℚ) - 1/2 - (depth : ℚ) / 2) * LEGO.STUD_SPACING }
          direction := { x := 0, y := 1, z := 0 } })
    | _ => []
  let antiStuds := (List.range width).flatMap (fun x =>
    (List.range depth).map (fun z =>
      { type := ConnectionPointType.anti_stud
        position := { x := ((x : ℚ) + 1/2 - (width : ℚ) / 2) * LEGO.STUD_SPACING
                      y := 0
                      z := ((z : ℚ) + 1/2 - (depth : ℚ) / 2) * LEGO.STUD_SPACING }
        direction := { x := 0, y := -1, z := 0 } }))
  studs ++ antiStuds

/-- `BrickRegistryClass.createSlopeBrick`. -/
def createSlopeBrick (id ldrawId name : String)
    (width depth heightInPlates : ℕ) (slopeAngle : ℚ)
    (slopeDirection : SlopeDirection) : BrickDefinition :=
  { id := id, ldrawId := ldrawId, name := name
    category := BrickCategory.slope
    shape := some BrickShape.slope
    shapeParams := some { slopeAngle := some slopeAngle
                          slopeDirection := some slopeDirection }
    dimensions := { width := width, depth := depth, height := heightInPlates }
    connectionPoints :=
      generateSlopeConnections width depth heightInPlates slopeDirection
    colliderShapes := generateBasicCollider width depth heightInPlates
    mass := some ((width : ℚ) * (depth : ℚ) * (heightInPlates : ℚ) * (2/5)) }

/-- `BrickRegistryClass.generateRoundConnections`. -/
def generateRoundConnections (_width height : ℕ) : List ConnectionPoint :=
  let heightMM := (height : ℚ) * LEGO.PLATE_HEIGHT
  [{ type := ConnectionPointType.stud
     position := { x := 0, y := heightMM, z := 0 }
     direction := { x := 0, y := 1, z := 0 } },
   { type := ConnectionPointType.anti_stud
     position := { x := 0, y := 0, z := 0 }
     direction := { x := 0, y := -1, z := 0 } }]

/-- `BrickRegistryClass.generateCylinderCollider`. -/
def generateCylinderCollider (width height : ℕ) : List ColliderShape :=
  let radius := (width : ℚ) * LEGO.STUD_SPACING / 2
  let heightMM := (height : ℚ) * LEGO.PLATE_HEIGHT
  [{ type := "cylinder", radius := some radius, height := some heightMM
     offset := some { x := 0, y := heightMM / 2, z := 0 } }]

/-- `BrickRegistryClass.createRoundBrick`. -/
def createRoundBrick (id ldrawId name : String) (width heightInPlates : ℕ)
    (hollow : Bool) : BrickDefinition :=
  { id := id, ldrawId := ldrawId, name := name
    category := BrickCategory.round
    shape := some BrickShape.round
    shapeParams := some { hollow := some hollow }
    dimensions := { width := width, depth := width, height := heightInPlates }
    connectionPoints := generateRoundConnections width heightInPlates
    colliderShapes := generateCylinderCollider width heightInPlates
    mass := some ((width : ℚ) * (width : ℚ) * (heightInPlates : ℚ) * (2/5)) }

/-- `BrickRegistryClass.generateConeConnections`. -/
def generateConeConnections (_width height : ℕ) : List ConnectionPoint :=
  let heightMM := (height : ℚ) * LEGO.PLATE_HEIGHT
  [{ type := ConnectionPointType.stud
     position := { x := 0, y := heightMM, z := 0 }
     direction := { x := 0, y := 1, z := 0 } },
   { type := ConnectionPointType.anti_stud
     position := { x := 0, y := 0, z := 0 }
     direction := { x := 0, y := -1, z := 0 } }]

/-- `BrickRegistryClass.createConeBrick`. -/
def createConeBrick (id ldrawId name : String) (width heightInPlates : ℕ) :
    BrickDefinition :=
  { id := id, ldrawId := ldrawId, name := name
    category := BrickCategory.round
    shape := some BrickShape.cone
    dimensions := { width := width, depth := width, height := heightInPlates }
    connectionPoints := generateConeConnections width heightInPlates
    colliderShapes := generateCylinderCollider width heightInPlates
    mass := some ((width : ℚ) * (width : ℚ) * (heightInPlates : ℚ) * (3/10)) }

/-- The registry contents after `registerDefaultBricks`, in registration
order; `register` is `mapSet` keyed by the definition id. -/
def defaultRegistry : List (String × BrickDefinition) :=
  [ createBasicBrick "brick_1x1" "3005.dat" "Brick 1x1" 1 1 3,
    createBasicBrick "brick_1x2" "3004.dat" "Brick 1x2" 2 1 3,
    createBasicBrick "brick_1x3" "3622.dat" "Brick 1x3" 3 1 3,
    createBasicBrick "brick_1x4" "3010.dat" "Brick 1x4" 4 1 3,
    createBasicBrick "brick_1x6" "3009.dat" "Brick 1x6" 6 1 3,
    createBasicBrick "brick_1x8" "3008.dat" "Brick 1x8" 8 1 3,
    createBasicBrick "brick_2x2" "3003.dat" "Brick 2x2" 2 2 3,
    createBasicBrick "brick_2x3" "3002.dat" "Brick 2x3" 3 2 3,
    createBasicBrick "brick_2x4" "3001.dat" "Brick 2x4" 4 2 3,
    createBasicBrick "brick_2x6" "2456.dat" "Brick 2x6" 6 2 3,
    createBasicBrick "brick_2x8" "3007.dat" "Brick 2x8" 8 2 3,
    createBasicBrick "plate_1x1" "3024.dat" "Plate 1x1" 1 1 1,
    createBasicBrick "plate_1x2" "3023.dat" "Plate 1x2" 2 1 1,
    createBasicBrick "plate_1x3" "3623.dat" "Plate 1x3" 3 1 1,
    createBasicBrick "plate_1x4" "3710.dat" "Plate 1x4" 4 1 1,
    createBasicBrick "plate_1x6" "3666.dat" "Plate 1x6" 6 1 1,
    createBasicBrick "plate_1x8" "3460.dat" "Plate 1x8" 8 1 1,
    createBasicBrick "plate_2x2" "3022.dat" "Plate 2x2" 2 2 1,
    createBasicBrick "plate_2x3" "3021.dat" "Plate 2x3" 3 2 1,
    createBasicBrick "plate_2x4" "3020.dat" "Plate 2x4" 4 2 1,
    createBasicBrick "plate_2x6" "3795.dat" "Plate 2x6" 6 2 1,
    createBasicBrick "plate_2x8" "3034.dat" "Plate 2x8" 8 2 1,
    createBasicBrick "plate_4x4" "3031.dat" "Plate 4x4" 4 4 1,
    createBasicBrick "plate_4x6" "3032.dat" "Plate 4x6" 6 4 1,
    createBasicBrick "plate_4x8" "3035.dat" "Plate 4x8" 8 4 1,
    createBasicBrick "plate_6x6" "3958.dat" "Plate 6x6" 6 6 1,
    createBasicBrick "plate_8x8" "41539.dat" "Plate 8x8" 8 8 1,
    createSlopeBrick "slope_45_1x2" "3040.dat" "Slope 45 1x2" 1 2 3 45
      SlopeDirection.front,
    createSlopeBrick "slope_45_2x2" "3039.dat" "Slope 45 2x2" 2 2 3 45
      SlopeDirection.front,
    createSlopeBrick "slope_45_1x3" "4286.dat" "Slope 45 1x3" 1 3 3 45
      SlopeDirection.front,
    createSlopeBrick "slope_45_2x3" "3038.dat" "Slope 45 2x3" 2 3 3 45
      SlopeDirection.front,
    createSlopeBrick "slope_45_2x4" "3037.dat" "Slope 45 2x4" 2 4 3 45
      SlopeDirection.front,
    createSlopeBrick "slope_33_1x3" "4286.dat" "Slope 33 1x3" 1 3 2 33
      SlopeDirection.front,
    createSlopeBrick "slope_33_2x3" "3298.dat" "Slope 33 2x3" 2 3 2 33
      SlopeDirection.front,
    createSlopeBrick "slope_33_3x3" "3675.dat" "Slope 33 3x3" 3 3 2 33
      SlopeDirection.front,
    createSlopeBrick "slope_65_1x2" "60481.dat" "Slope 65 1x2" 1 2 3 65
      SlopeDirection.front,
    createSlopeBrick "slope_65_2x2" "60481.dat" "Slope 65 2x2" 2 2 3 65
      SlopeDirection.front,
    createRoundBrick "brick_round_1x1" "3062b.dat" "Brick Round 1x1" 1 3 false,
    createRoundBrick "brick_round_2x2" "3941.dat" "Brick Round 2x2" 2 3 false,
    createRoundBrick "plate_round_1x1" "6141.dat" "Plate Round 1x1" 1 1 false,
    createRoundBrick "plate_round_2x2" "4032.dat" "Plate Round 2x2" 2 1 false,
    createConeBrick "cone_1x1" "4589.dat" "Cone 1x1" 1 3,
    createConeBrick "cone_2x2" "3942c.dat" "Cone 2x2x2" 2 6
  ].foldl (fun m d => mapSet m d.id d) []

/-- `BrickRegistry.get`. -/
def get (r : List (String × BrickDefinition)) (id : String) :
    Option BrickDefinition :=
  mapGet r id

end BrickRegistry

/-! ## Snap detection (`SnapDetector.ts`) -/

/-- `rotatePointY`: rotate a local XZ offset about the Y axis. -/
def rotatePointY (T : NumOracle) (x z rotationY : ℚ) : ℚ × ℚ :=
  let c := T.cos rotationY
  let s := T.sin rotationY
  (x * c - z * s, x * s + z * c)

/-- `SnapDetector.getConnectionWorldPosition`: rotate the local position
about Y, then translate by the brick's position. -/
def snapConnectionWorldPosition (T : NumOracle) (brick : BrickInstance)
    (point : ConnectionPoint) : Vec3 :=
  let rotated := rotatePointY T point.position.x point.position.z brick.rotation.y
  { x := brick.position.x + rotated.1
    y := brick.position.y + point.position.y
    z := brick.position.z + rotated.2 }

/-- `getBrickStudPositions`: world positions of a brick's studs; empty
list when the definition is unknown. -/
def getBrickStudPositions (T : NumOracle)
    (r : List (String × BrickDefinition)) (brick : BrickInstance) :
    List Vec3 :=
  match BrickRegistry.get r brick.definitionId with
  | none => []
  | some dfn =>
    (dfn.connectionPoints.filter
      (fun p => p.type == ConnectionPointType.stud)).map
      (snapConnectionWorldPosition T brick)

/-- `getBrickAntiStudPositions`: world positions of a brick's anti-studs;
empty list when the definition is unknown. -/
def getBrickAntiStudPositions (T : NumOracle)
    (r : List (String × BrickDefinition)) (brick : BrickInstance) :
    List Vec3 :=
  match BrickRegistry.get r brick.definitionId with
  | none => []
  | some dfn =>
    (dfn.connectionPoints.filter
      (fun p => p.type == ConnectionPointType.anti_stud)).map
      (snapConnectionWorldPosition T brick)

/-- `checkAllStudsAlign`: at the candidate position, at least one
anti-stud of the new part must land within 0.5mm per axis of some
existing stud. -/
def checkAllStudsAlign (T : NumOracle)
    (r : List (String × BrickDefinition)) (brickDef : BrickDefinition)
    (position : Vec3) (existingBricks : List BrickInstance)
    (rotationY : ℚ) : Bool :=
  let antiStuds := brickDef.connectionPoints.filter
    (fun p => p.type == ConnectionPointType.anti_stud)
  let allStudPositions := existingBricks.flatMap (getBrickStudPositions T r)
  let alignedCount := antiStuds.countP (fun antiStud =>
    let rotatedOffset :=
      rotatePointY T antiStud.position.x antiStud.position.z rotationY
    let worldPos : Vec3 :=
      { x := position.x + rotatedOffset.1
        y := position.y + antiStud.position.y
        z := position.z + rotatedOffset.2 }
    allStudPositions.any (fun studPos =>
      decide (jsAbs (worldPos.x - studPos.x) < 1/2) &&
      decide (jsAbs (worldPos.y - studPos.y) < 1/2) &&
      decide (jsAbs (worldPos.z - studPos.z) < 1/2)))
  alignedCount > 0

/-- `top` / `bottom` in `SnapResult.connectionType`. -/
inductive SnapSide where
  | top
  | bottom
deriving DecidableEq

/-- `SnapResult`. -/
structure SnapResult where
  position : Vec3
  isValid : Bool
  connectedBrickId : Option String := none
  connectionType : Option SnapSide := none
deriving DecidableEq

/-- The mutable loop state of `findSnapPosition`: `bestSnap` plus
`bestDistance`, where `none` embeds the JavaScript initial `Infinity`. -/
structure SnapState where
  best : SnapResult
  bestDistance : Option ℚ
deriving DecidableEq

/-- `d < bestDistance` with `none` as `Infinity`. -/
def ltBestDistance (d : ℚ) : Option ℚ → Prop
  | none => True
  | some b => d < b

instance (d : ℚ) (o : Option ℚ) : Decidable (ltBestDistance d o) := by
  cases o <;> simp [ltBestDistance] <;> infer_instance

/-- One iteration of the top-placement pass of `findSnapPosition`: an
existing brick's stud against one of the new part's anti-studs. -/
def snapStepTop (T : NumOracle) (r : List (String × BrickDefinition))
    (newBrickDef : BrickDefinition) (roughPosition : Vec3)
    (snapDistance rotationY : ℚ) (existingBricks : List BrickInstance)
    (st : SnapState) (item : BrickInstance × Vec3 × ConnectionPoint) :
    SnapState :=
  let existingBrick := item.1
  let existingStud := item.2.1
  let newAntiStud := item.2.2
  let rotatedOffset :=
    rotatePointY T newAntiStud.position.x newAntiStud.position.z rotationY
  let snapPos : Vec3 :=
    { x := existingStud.x - rotatedOffset.1
      y := existingStud.y - newAntiStud.position.y
      z := existingStud.z - rotatedOffset.2 }
  let yDelta := jsAbs (snapPos.y - roughPosition.y)
  if yDelta > LEGO.STUD_HEIGHT then st
  else
    let dx := snapPos.x - roughPosition.x
    let dz := snapPos.z - roughPosition.z
    let horizontalDistance := T.sqrt (dx * dx + dz * dz)
    if horizontalDistance < snapDistance ∧
        ltBestDistance horizontalDistance st.bestDistance then
      if checkAllStudsAlign T r newBrickDef snapPos existingBricks rotationY then
        { best := { position := snapPos, isValid := true
                    connectedBrickId := some existingBrick.id
                    connectionType := some SnapSide.top }
          bestDistance := some horizontalDistance }
      else st
    else st

/-- One iteration of the bottom-placement pass of `findSnapPosition`: an
existing brick's anti-stud against one of the new part's studs, offset by
one stud height. -/
def snapStepBottom (T : NumOracle) (roughPosition : Vec3)
    (snapDistance rotationY : ℚ) (st : SnapState)
    (item : BrickInstance × Vec3 × ConnectionPoint) : SnapState :=
  let existingBrick := item.1
  let existingAntiStud := item.2.1
  let newStud := item.2.2
  let rotatedOffset :=
    rotatePointY T newStud.position.x newStud.position.z rotationY
  let snapPos : Vec3 :=
    { x := existingAntiStud.x - rotatedOffset.1
      y := existingAntiStud.y - newStud.position.y - LEGO.STUD_HEIGHT
      z := existingAntiStud.z - rotatedOffset.2 }
  let yDelta := jsAbs (snapPos.y - roughPosition.y)
  if yDelta > LEGO.STUD_HEIGHT then st
  else
    let dx := snapPos.x - roughPosition.x
    let dz := snapPos.z - roughPosition.z
    let horizontalDistance := T.sqrt (dx * dx + dz * dz)
    if horizontalDistance < snapDistance ∧
        ltBestDistance horizontalDistance st.bestDistance then
      { best := { position := snapPos, isValid := true
                  connectedBrickId := some existingBrick.id
                  connectionType := some SnapSide.bottom }
        bestDistance := some horizontalDistance }
    else st

/-- `findSnapPosition`: try to align the new part's anti-studs on top of
existing studs, then its studs under existing anti-studs, keeping the
candidate with the smallest horizontal distance; the nested source loops
are flattened into folds over (brick, point, point) triples in the same
iteration order. -/
def findSnapPosition (T : NumOracle) (r : List (String × BrickDefinition))
    (newBrickDef : BrickDefinition) (roughPosition : Vec3)
    (existingBricks : List BrickInstance) (snapDistance rotationY : ℚ) :
    SnapResult :=
  let newAntiStuds := newBrickDef.connectionPoints.filter
    (fun p => p.type == ConnectionPointType.anti_stud)
  let newStuds := newBrickDef.connectionPoints.filter
    (fun p => p.type == ConnectionPointType.stud)
  let init : SnapState :=
    { best := { position := roughPosition, isValid := false }
      bestDistance := none }
  let topItems := existingBricks.flatMap (fun e =>
    (getBrickStudPositions T r e).flatMap (fun s =>
      newAntiStuds.map (fun a => (e, s, a))))
  let s1 := topItems.foldl
    (snapStepTop T r newBrickDef roughPosition snapDistance rotationY
      existingBricks) init
  let bottomItems := existingBricks.flatMap (fun e =>
    (getBrickAntiStudPositions T r e).flatMap (fun s =>
      newStuds.map (fun a => (e, s, a))))
  let s2 := bottomItems.foldl
    (snapStepBottom T roughPosition snapDistance rotationY) s1
  s2.best

/-! ## Collision checking (`src/core/collision`) -/

/-- Axis-aligned bounding box (`BoundingBox`). -/
structure BoundingBox where
  minX : ℚ
  maxX : ℚ
  minY : ℚ
  maxY : ℚ
  minZ : ℚ
  maxZ : ℚ
deriving DecidableEq

/-- `getBrickBoundingBox`: footprint-sized box, width/depth swapped under
~90° yaw, spanning from the brick's Y position up by its height. -/
def getBrickBoundingBox (T : NumOracle)
    (r : List (String × BrickDefinition)) (brick : BrickInstance) :
    Option BoundingBox :=
  match BrickRegistry.get r brick.definitionId with
  | none => none
  | some dfn =>
    let rotated := isRotated90Degrees T brick.rotation.y
    let effectiveWidth : ℚ :=
      if rotated then dfn.dimensions.depth else dfn.dimensions.width
    let effectiveDepth : ℚ :=
      if rotated then dfn.dimensions.width else dfn.dimensions.depth
    let halfWidth := effectiveWidth * LEGO.STUD_SPACING / 2
    let halfDepth := effectiveDepth * LEGO.STUD_SPACING / 2
    let brickHeight := (dfn.dimensions.height : ℚ) * LEGO.PLATE_HEIGHT
    some { minX := brick.position.x - halfWidth
           maxX := brick.position.x + halfWidth
           minY := brick.position.y
           maxY := brick.position.y + brickHeight
           minZ := brick.position.z - halfDepth
           maxZ := brick.position.z + halfDepth }

/-- `boxesOverlap`: intersection on all three axes after shrinking by the
tolerance margin. -/
def boxesOverlap (a b : BoundingBox) (tolerance : ℚ) : Bool :=
  decide (a.minX < b.maxX - tolerance ∧
    a.maxX > b.minX + tolerance ∧
    a.minY < b.maxY - tolerance ∧
    a.maxY > b.minY + tolerance ∧
    a.minZ < b.maxZ - tolerance ∧
    a.maxZ > b.minZ + tolerance)

/-- The candidate argument of `checkCollision` (an anonymous record in
the source: definition id, position, optional rotation). -/
structure CollisionCandidate where
  definitionId : String
  position : Vec3
  rotation : Option Vec3 := none
deriving DecidableEq

/-- The loop of `checkCollision` over existing bricks: skip the excluded
id, skip bricks with unknown definitions, report the first overlap. -/
def checkCollisionAux (T : NumOracle)
    (r : List (String × BrickDefinition)) (newBox : BoundingBox) :
    List BrickInstance → Option String → Bool
  | [], _ => false
  | brick :: rest, excludeId =>
    if excludeId = some brick.id then
      checkCollisionAux T r newBox rest excludeId
    else
      match getBrickBoundingBox T r brick with
      | none => checkCollisionAux T r newBox rest excludeId
      | some existingBox =>
        if boxesOverlap newBox existingBox (1/10) then true
        else checkCollisionAux T r newBox rest excludeId

/-- `checkCollision`: builds a temporary instance for the candidate (the
source's literal with id `temp` and defaulted rotation) and scans the
existing bricks pairwise. -/
def checkCollision (T : NumOracle) (r : List (String × BrickDefinition))
    (newBrick : CollisionCandidate) (existingBricks : List BrickInstance)
    (excludeId : Option String) : Bool :=
  let newBrickInstance : BrickInstance :=
    { id := "temp"
      definitionId := newBrick.definitionId
      position := newBrick.position
      rotation := newBrick.rotation.getD { x := 0, y := 0, z := 0 }
      colorId := 0
      isSelected := false
      isLocked := false
      isGhost := false
      connections := []
      isStatic := false }
  match getBrickBoundingBox T r newBrickInstance with
  | none => false
  | some newBox => checkCollisionAux T r newBox existingBricks excludeId

/-! ## Connection store (`ConnectionManager.ts`, `src/types` part) -/

/-- Connection types (`ConnectionType`). -/
inductive ConnectionType where
  | stud_antistud
  | axle_hole
  | pin_hole
  | technic_beam
  | clip_bar
deriving DecidableEq

/-- A stored connection (`Connection` in `src/types`). -/
structure Connection where
  id : String
  type : ConnectionType
  brick1Id : String
  brick2Id : String
  point1Index : ℕ
  point2Index : ℕ
  isRigid : Bool
  rotationAxis : Option Vec3 := none
  rotationLimits : Option (ℚ × ℚ) := none
  createdAt : ℕ
deriving DecidableEq

/-- A connection candidate (`ConnectionCandidate`). -/
structure ConnectionCandidate where
  brick1Id : String
  brick2Id : String
  point1 : ConnectionPoint
  point2 : ConnectionPoint
  point1Index : ℕ
  point2Index : ℕ
  distance : ℚ
deriving DecidableEq

namespace ConnectionManager

/-- The `connections` map of the manager: a JavaScript `Map` from key to
`Connection`, in insertion order. -/
abbrev Store : Type := List (String × Connection)

/-- JavaScript's default string comparison (`Array.sort` on strings):
lexicographic on code units. -/
def jsCharListLt : List Char → List Char → Bool
  | [], [] => false
  | [], _ :: _ => true
  | _ :: _, [] => false
  | a :: as, b :: bs =>
    if a.val < b.val then true
    else if b.val < a.val then false
    else jsCharListLt as bs

/-- Lexicographic string order as JavaScript compares strings. -/
def jsStrLt (a b : String) : Bool := jsCharListLt a.data b.data

/-- `getConnectionKey`: the canonical unordered pair key, the two ids
sorted lexicographically then joined with a colon. -/
def getConnectionKey (brick1Id brick2Id : String) : String :=
  if jsStrLt brick2Id brick1Id then brick2Id ++ ":" ++ brick1Id
  else brick1Id ++ ":" ++ brick2Id

/-- `createConnections`: for each candidate, skip when the store already
has an entry under the canonical pair key, otherwise insert a new
connection under its own freshly generated uuid (`gen k`, `gen (k+1)`, …)
and collect it.  `now` embeds `Date.now()`. -/
def createConnections (gen : ℕ → String) (now : ℕ) (k : ℕ)
    (candidates : List ConnectionCandidate) (store : Store) :
    List Connection × Store :=
  match candidates with
  | [] => ([], store)
  | candidate :: rest =>
    let existingKey := getConnectionKey candidate.brick1Id candidate.brick2Id
    if store.any (fun p => p.1 = existingKey) then
      createConnections gen now k rest store
    else
      let connection : Connection :=
        { id := gen k
          type := ConnectionType.stud_antistud
          brick1Id := candidate.brick1Id
          brick2Id := candidate.brick2Id
          point1Index := candidate.point1Index
          point2Index := candidate.point2Index
          isRigid := true
          createdAt := now }
      let result :=
        createConnections gen now (k + 1) rest
          (mapSet store connection.id connection)
      (connection :: result.1, result.2)

/-- `removeConnectionsForBrick`: delete every stored connection touching
the brick while iterating, returning the removed connections in store
order together with the remaining store. -/
def removeConnectionsForBrick (store : Store) (brickId : String) :
    List Connection × Store :=
  match store with
  | [] => ([], [])
  | (k, conn) :: rest =>
    let result := removeConnectionsForBrick rest brickId
    if conn.brick1Id = brickId ∨ conn.brick2Id = brickId then
      (conn :: result.1, result.2)
    else (result.1, (k, conn) :: result.2)

/-- `getAllConnections`: the stored values in insertion order. -/
def getAllConnections (store : Store) : List Connection :=
  store.map (fun p => p.2)

/-- `getConnectionsForBrick`. -/
def getConnectionsForBrick (store : Store) (brickId : String) :
    List Connection :=
  (getAllConnections store).filter
    (fun c => decide (c.brick1Id = brickId) || decide (c.brick2Id = brickId))

/-- `getConnectedBrickIds`. -/
def getConnectedBrickIds (store : Store) (brickId : String) : List String :=
  (getConnectionsForBrick store brickId).map
    (fun conn => if conn.brick1Id = brickId then conn.brick2Id else conn.brick1Id)

/-- The loop of `findConnectedGroup`: breadth-first traversal with a
visited list and a queue, with explicit fuel (the source loops until the
queue empties; `findConnectedGroup` supplies enough fuel for that point
to be reached, see `findConnectedGroupAux_complete`). -/
def findConnectedGroupAux (store : Store) :
    ℕ → List String → List String → List String
  | 0, _, visited => visited
  | _ + 1, [], visited => visited
  | fuel + 1, currentId :: queue, visited =>
    if currentId ∈ visited then
      findConnectedGroupAux store fuel queue visited
    else
      findConnectedGroupAux store fuel
        (queue ++ (getConnectedBrickIds store currentId).filter
          (fun id => !(visited.contains id)))
        (visited ++ [currentId])

/-- `findConnectedGroup`: all brick ids connected to the start brick. -/
def findConnectedGroup (store : Store) (startBrickId : String) :
    List String :=
  findConnectedGroupAux store
    ((1 + 2 * store.length) * (store.length + 1) + 1) [startBrickId] []

/-- `isGrounded`: some brick of the connected group sits at `y ≤ 0`. -/
def isGrounded (store : Store) (brickId : String)
    (bricks : List (String × BrickInstance)) : Bool :=
  (findConnectedGroup store brickId).any (fun id =>
    match mapGet bricks id with
    | some brick => decide (brick.position.y ≤ 0)
    | none => false)

end ConnectionManager

/-! ## LDraw exporter (`LDrawExporter.ts`) -/

/-- A 3×3 matrix in row-major storage `m[0..8]`. -/
structure Mat3 where
  m0 : ℚ
  m1 : ℚ
  m2 : ℚ
  m3 : ℚ
  m4 : ℚ
  m5 : ℚ
  m6 : ℚ
  m7 : ℚ
  m8 : ℚ
deriving DecidableEq

namespace LDrawExporter

/-- `mmToLDU`. -/
def mmToLDU (mm : ℚ) : ℚ := mm * LDU.LDU_PER_MM

/-- `eulerToMatrix`: rotation matrix from Euler angles in Z∘Y∘X order,
row-major. -/
def eulerToMatrix (T : NumOracle) (rotation : Vec3) : Mat3 :=
  let cx := T.cos rotation.x
  let sx := T.sin rotation.x
  let cy := T.cos rotation.y
  let sy := T.sin rotation.y
  let cz := T.cos rotation.z
  let sz := T.sin rotation.z
  { m0 := cy * cz, m1 := -cy * sz, m2 := sy
    m3 := sx * sy * cz + cx * sz, m4 := -sx * sy * sz + cx * cz
    m5 := -sx * cy
    m6 := -cx * sy * cz + sx * sz, m7 := cx * sy * sz + sx * cz
    m8 := cx * cy }

/-- Zero-pad a fraction-part numeral to three digits. -/
def pad3 (n : ℕ) : String :=
  if n < 10 then "00" ++ toString n
  else if n < 100 then "0" ++ toString n
  else toString n

/-- JavaScript `toFixed(3)` for the inputs `formatNumber` feeds it: the
argument is always an exact multiple of 1/1000 there, where `toFixed`
renders sign, integer part, a dot and exactly three fraction digits. -/
def toFixed3 (q : ℚ) : String :=
  let sign := if q < 0 then "-" else ""
  let m := jsRound (jsAbs q * 1000)
  sign ++ toString (m / 1000) ++ "." ++ pad3 (m % 1000).toNat

/-- The regex replace `\.?0+$` of `formatNumber`: strip trailing zeros
and, when everything after the dot was zeros, the dot itself. -/
def stripTrailingZeros (s : String) : String :=
  let r := s.toList.reverse
  if r.head? = some '0' then
    let r1 := r.dropWhile (fun c => c = '0')
    let r2 := if r1.head? = some '.' then r1.tail else r1
    String.mk r2.reverse
  else s

/-- `formatNumber`: round to 3 decimal places; integers are rendered
without a decimal point, other values with up to three decimals and
trailing zeros stripped. -/
def formatNumber (n : ℚ) : String :=
  let rounded := (jsRound (n * 1000) : ℚ) / 1000
  if jsAbs (rounded - (jsRound rounded : ℚ)) < 1/10000 then
    toString (jsRound rounded)
  else stripTrailingZeros (toFixed3 rounded)

/-- The `parts` list of `exportBrick`: line-type tag, color, position in
LDU with Y negated, the Y-reflection-conjugated rotation matrix in LDraw
order a d g b e h c f i, and the part file name; `none` when the
definition id is unknown. -/
def exportBrickParts (T : NumOracle)
    (r : List (String × BrickDefinition)) (brick : BrickData) :
    Option (List String) :=
  match BrickRegistry.get r brick.definitionId with
  | none => none
  | some dfn =>
    let partFile := dfn.ldrawId
    let color := brick.colorId
    let x := mmToLDU brick.position.x
    let y := mmToLDU (-brick.position.y)
    let z := mmToLDU brick.position.z
    let m := eulerToMatrix T brick.rotation
    let matrix : Mat3 :=
      { m0 := m.m0, m1 := -m.m1, m2 := m.m2
        m3 := -m.m3, m4 := m.m4, m5 := -m.m5
        m6 := m.m6, m7 := -m.m7, m8 := m.m8 }
    some ["1", toString color,
          formatNumber x, formatNumber y, formatNumber z,
          formatNumber matrix.m0, formatNumber matrix.m3,
          formatNumber matrix.m6,
          formatNumber matrix.m1, formatNumber matrix.m4,
          formatNumber matrix.m7,
          formatNumber matrix.m2, formatNumber matrix.m5,
          formatNumber matrix.m8,
          partFile]

/-- `exportBrick`: the parts joined with single spaces. -/
def exportBrick (T : NumOracle) (r : List (String × BrickDefinition))
    (brick : BrickData) : Option String :=
  (exportBrickParts T r brick).map (String.intercalate " ")

/-- `LDrawExporter.export` (`export` is a Lean keyword, hence the name):
header comments, one line per known brick, footer. -/
def exportModel (T : NumOracle) (r : List (String × BrickDefinition))
    (bricks : List BrickData) (modelName : String) : String :=
  let headerLines := ["0 " ++ modelName, "0 Name: model.ldr",
    "0 Author: LEGO Simulator", "0 !LDRAW_ORG Unofficial_Model", ""]
  let bodyLines := bricks.filterMap (exportBrick T r)
  String.intercalate "\n" (headerLines ++ bodyLines ++ ["", "0 NOFILE"])

end LDrawExporter

/-! ## Derived relations and predicates used by the theorems -/

/-- The brick-to-brick adjacency induced by the stored connections: `b` is
adjacent to `a` when the manager lists `b` among `a`'s connected brick
ids. -/
def connAdjacent (store : ConnectionManager.Store) (a b : String) : Prop :=
  b ∈ ConnectionManager.getConnectedBrickIds store a

/-- Membership in the connected component: reflexive-transitive closure
of the connection adjacency. -/
def connReach (store : ConnectionManager.Store) : String → String → Prop :=
  Relation.ReflTransGen (connAdjacent store)

/-- A standard part definition: every stud sits on the top face
(local `y` = height × plate height) and every anti-stud on the base
(local `y` = 0).  All definitions produced by the registry's generators
satisfy this. -/
def StandardDef (d : BrickDefinition) : Prop :=
  ∀ p ∈ d.connectionPoints,
    (p.type = ConnectionPointType.stud →
      p.position.y = (d.dimensions.height : ℚ) * LEGO.PLATE_HEIGHT) ∧
    (p.type = ConnectionPointType.anti_stud → p.position.y = 0)

instance (d : BrickDefinition) : Decidable (StandardDef d) := by
  unfold StandardDef; infer_instance

/-- `StandardDef` holds of whatever the registry returns for an id
(vacuously true on a lookup miss). -/
def StandardLookup (r : List (String × BrickDefinition)) (id : String) :
    Prop :=
  match BrickRegistry.get r id with
  | some dd => StandardDef dd
  | none => True

instance (r : List (String × BrickDefinition)) (id : String) :
    Decidable (StandardLookup r id) := by
  unfold StandardLookup
  rcases BrickRegistry.get r id with _ | dd
  · exact inferInstanceAs (Decidable True)
  · exact inferInstanceAs (Decidable (StandardDef dd))

/-- The loop invariant of `findSnapPosition`: any valid best snap names
an existing brick with a known definition, and its Y coordinate is that
brick's top face (top pass) or one new-part height plus one stud height
below that brick's base (bottom pass). -/
def SnapInv (r : List (String × BrickDefinition))
    (newDef : BrickDefinition) (existingBricks : List BrickInstance)
    (s : SnapState) : Prop :=
  s.best.isValid = true →
    ∃ e ∈ existingBricks, s.best.connectedBrickId = some e.id ∧
      ∃ dd, BrickRegistry.get r e.definitionId = some dd ∧
        (s.best.position.y =
            e.position.y + (dd.dimensions.height : ℚ) * LEGO.PLATE_HEIGHT ∨
          s.best.position.y =
            e.position.y - (newDef.dimensions.height : ℚ) * LEGO.PLATE_HEIGHT -
              LEGO.STUD_HEIGHT)

/-- All connection endpoints occurring in the store. -/
def endpointIds (store : ConnectionManager.Store) : List String :=
  store.flatMap (fun p => [p.2.brick1Id, p.2.brick2Id])

/-! ## Concrete scenario data -/

/-- The 1×1 standard brick definition, as registered. -/
def brickDef1x1 : BrickDefinition :=
  BrickRegistry.createBasicBrick "brick_1x1" "3005.dat" "Brick 1x1" 1 1 3

/-- A 1×1 brick resting on the ground plane at the origin. -/
def demoA : BrickInstance :=
  { id := "A", definitionId := "brick_1x1"
    position := { x := 0, y := 0, z := 0 }
    rotation := { x := 0, y := 0, z := 0 }
    colorId := 4, isSelected := false, isLocked := false, isGhost := false
    connections := [], isStatic := false }

/-- A 1×1 brick stacked directly on top of `demoA` (one brick height up). -/
def demoB : BrickInstance :=
  { demoA with id := "B", position := { x := 0, y := 48/5, z := 0 } }

/-- A 1×1 brick exactly one stud spacing to the side of `demoA`, so their
bounding boxes share the `x = 4` face. -/
def demoC : BrickInstance :=
  { demoA with id := "C", position := { x := 8, y := 0, z := 0 } }

/-- A 2×4 standard brick at the world origin with zero rotation. -/
def brick2x4At0 : BrickData :=
  { id := "X", definitionId := "brick_2x4"
    position := { x := 0, y := 0, z := 0 }
    rotation := { x := 0, y := 0, z := 0 }, colorId := 4 }

/-- A 1×1 brick placed at world Y = +9.6mm (one brick height). -/
def brick1x1AtY96 : BrickData :=
  { brick2x4At0 with
    definitionId := "brick_1x1"
    position := { x := 0, y := 48/5, z := 0 } }

/-- A serialized part whose definition id misses the registry. -/
def badBrickData : BrickData :=
  { brick2x4At0 with id := "Y", definitionId := "no_such_part" }

/-- A placed part whose definition id misses the registry. -/
def badInstance : BrickInstance :=
  { demoA with id := "Z", definitionId := "no_such_part" }

/-- Deterministic stand-in for the `uuid()` generator: fresh, pairwise
distinct ids that are never equal to a pair key (pair keys contain a
colon). -/
def demoUuidGen : ℕ → String := fun n => "uuid-" ++ toString n

/-- A single connection candidate between bricks `a` and `b`. -/
def demoCandidate : ConnectionCandidate :=
  { brick1Id := "a", brick2Id := "b"
    point1 := { type := ConnectionPointType.anti_stud
                position := { x := 0, y := 0, z := 0 }
                direction := { x := 0, y := -1, z := 0 } }
    point2 := { type := ConnectionPointType.stud
                position := { x := 0, y := 48/5, z := 0 }
                direction := { x := 0, y := 1, z := 0 } }
    point1Index := 1, point2Index := 0, distance := 0 }

/-- The stored connection between `demoB` (on top) and `demoA` (below). -/
def demoConnection : Connection :=
  { id := "uuid-7", type := ConnectionType.stud_antistud
    brick1Id := "B", brick2Id := "A", point1Index := 1, point2Index := 0
    isRigid := true, createdAt := 0 }

/-- A store holding exactly the `demoConnection`. -/
def demoStore : ConnectionManager.Store := [("uuid-7", demoConnection)]

/-- The scene map holding `demoA` and `demoB`. -/
def demoBricks : List (String × BrickInstance) := [("A", demoA), ("B", demoB)]

/-- Expected `exportBrickParts` output for `brick1x1AtY96`. -/
def demoParts96 : List String :=
  ["1", "4", "0", "-24", "0", "1", "0", "0", "0", "1", "0", "0", "0", "1",
   "3005.dat"]

/-- Bounding box of `demoA`. -/
def demoBoxA : BoundingBox :=
  { minX := -4, maxX := 4, minY := 0, maxY := 48/5, minZ := -4, maxZ := 4 }

/-- Bounding box of `demoC`. -/
def demoBoxC : BoundingBox :=
  { minX := 4, maxX := 12, minY := 0, maxY := 48/5, minZ := -4, maxZ := 4 }

/-! ## Helper lemmas -/

theorem jsRound_eq_floor (q : ℚ) : jsRound q = ⌊q + 1/2⌋ := by
  rw [jsRound, Rat.floor_def', Rat.floor_def]

theorem jsRound_intCast (k : ℤ) : jsRound (k : ℚ) = k := by
  rw [jsRound_eq_floor, add_comm, Int.floor_add_int]
  norm_num

theorem snapAxis_idem (off x pitch : ℚ) (hp : pitch ≠ 0) :
    (jsRound (((jsRound ((x - off) / pitch) : ℚ) * pitch + off - off) / pitch) : ℚ) *
        pitch + off =
      (jsRound ((x - off) / pitch) : ℚ) * pitch + off := by
  have h1 : ((jsRound ((x - off) / pitch) : ℚ) * pitch + off - off) / pitch =
      (jsRound ((x - off) / pitch) : ℚ) := by
    field_simp
  rw [h1, jsRound_intCast]

theorem snapY_idem (y pitch : ℚ) (hp : pitch ≠ 0) :
    (jsRound (((jsRound (y / pitch) : ℚ) * pitch) / pitch) : ℚ) * pitch =
      (jsRound (y / pitch) : ℚ) * pitch := by
  have h1 : ((jsRound (y / pitch) : ℚ) * pitch) / pitch =
      (jsRound (y / pitch) : ℚ) := by
    field_simp
  rw [h1, jsRound_intCast]

/-! ## Claim theorems -/

/-- **C3.** For every point, stud counts and yaw, `snapToGridWithDimensions`
computes exactly what the spec describes: width and depth are swapped
exactly when the yaw, normalized into `[0, 2π)`, is within the small
tolerance of 90° or 270°; each horizontal axis uses an offset of half the
8mm stud spacing when the effective stud count is even and zero when odd,
returning `round((coordinate − offset) / 8mm) × 8mm + offset`, while Y is
always rounded to the nearest multiple of the 3.2mm plate height with
zero offset (`specGridSnap`, written from the spec's words). -/
theorem snapToGridWithDimensions_matches_spec (T : NumOracle) (p : Vec3)
    (w d : ℕ) (yaw : ℚ) (hw : 0 < w) (hd : 0 < d) :
    snapToGridWithDimensions T p w d yaw = specGridSnap T p w d yaw := rfl

/-- Witness for C3 at a concrete input. -/
theorem snapToGridWithDimensions_matches_spec_witness :
    0 < 2 ∧ 0 < 4 ∧
      snapToGridWithDimensions oracle0 { x := 3, y := 5, z := -2 } 2 4 0 =
        specGridSnap oracle0 { x := 3, y := 5, z := -2 } 2 4 0 :=
  ⟨by decide, by decide,
    snapToGridWithDimensions_matches_spec oracle0
      { x := 3, y := 5, z := -2 } 2 4 0 (by decide) (by decide)⟩

/-- **C4.** Grid snapping is idempotent: snapping an already snapped
point with the same footprint and yaw returns it unchanged. -/
theorem snapToGridWithDimensions_idem (T : NumOracle) (p : Vec3)
    (w d : ℕ) (yaw : ℚ) (hw : 0 < w) (hd : 0 < d) :
    snapToGridWithDimensions T (snapToGridWithDimensions T p w d yaw) w d yaw =
      snapToGridWithDimensions T p w d yaw := by
  unfold snapToGridWithDimensions
  have hpitch : LEGO.STUD_SPACING ≠ 0 := by norm_num [LEGO.STUD_SPACING]
  have hplate : LEGO.PLATE_HEIGHT ≠ 0 := by norm_num [LEGO.PLATE_HEIGHT]
  simp only [Vec3.mk.injEq]
  refine ⟨?_, ?_, ?_⟩
  · exact snapAxis_idem _ p.x _ hpitch
  · exact snapY_idem p.y _ hplate
  · exact snapAxis_idem _ p.z _ hpitch

/-- Witness for C4 at a concrete input. -/
theorem snapToGridWithDimensions_idem_witness :
    0 < 1 ∧ 0 < 1 ∧
      snapToGridWithDimensions oracle0
          (snapToGridWithDimensions oracle0 { x := 3, y := 5, z := -2 } 1 1 0)
          1 1 0 =
        snapToGridWithDimensions oracle0 { x := 3, y := 5, z := -2 } 1 1 0 :=
  ⟨by decide, by decide,
    snapToGridWithDimensions_idem oracle0 { x := 3, y := 5, z := -2 } 1 1 0
      (by decide) (by decide)⟩

set_option maxRecDepth 100000 in
/-- **C5.** Exporting a single 2×4 standard brick (footprint 4×2, height
3 plate-units) at world position (0,0,0) with zero rotation produces a
body line with position fields `0 0 0`, the identity matrix
`1 0 0 0 1 0 0 0 1` in the a,d,g,b,e,h,c,f,i field order, integers
rendered without a decimal point, and the registry's `3001.dat` file. -/
theorem exportBrick_2x4_at_origin_line :
    LDrawExporter.exportBrick oracle0 BrickRegistry.defaultRegistry
        brick2x4At0 =
      some "1 4 0 0 0 1 0 0 0 1 0 0 0 1 3001.dat" := by decide

/-- **C6.** Every exported part's three position fields are the world
position in millimeters times the fixed ratio 2.5 with the Y coordinate
negated; in particular a part at world Y = +9.6mm exports position Y
`-24`. -/
theorem exportBrick_position_fields :
    (∀ (T : NumOracle) (r : List (String × BrickDefinition)) (b : BrickData)
        (parts : List String),
        LDrawExporter.exportBrickParts T r b = some parts →
        parts.get? 2 = some (LDrawExporter.formatNumber (b.position.x * (5/2))) ∧
        parts.get? 3 = some (LDrawExporter.formatNumber (-b.position.y * (5/2))) ∧
        parts.get? 4 = some (LDrawExporter.formatNumber (b.position.z * (5/2)))) ∧
      (LDrawExporter.exportBrickParts oracle0 BrickRegistry.defaultRegistry
          brick1x1AtY96).bind (fun l => l.get? 3) = some "-24" := by
  constructor
  · intro T r b parts h
    unfold LDrawExporter.exportBrickParts at h
    cases hg : BrickRegistry.get r b.definitionId with
    | none => rw [hg] at h; cases h
    | some dfn =>
      rw [hg] at h
      simp only [Option.some.injEq] at h
      subst h
      refine ⟨rfl, rfl, rfl⟩
  · decide

/-- Witness for C6 at a concrete input. -/
theorem exportBrick_position_fields_witness :
    LDrawExporter.exportBrickParts oracle0 BrickRegistry.defaultRegistry
        brick1x1AtY96 = some demoParts96 ∧
      demoParts96.get? 3 =
        some (LDrawExporter.formatNumber (-brick1x1AtY96.position.y * (5/2))) :=
  ⟨by decide,
    (exportBrick_position_fields.1 oracle0 BrickRegistry.defaultRegistry
        brick1x1AtY96 demoParts96 (by decide)).2.1⟩

/-- **C10.** `removeConnectionsForBrick` removes exactly the stored
connections whose `brick1Id` or `brick2Id` equals the given id, returns
exactly the removed connections in store order, and leaves every other
stored entry unchanged in order. -/
theorem removeConnectionsForBrick_partition (store : ConnectionManager.Store)
    (brickId : String) :
    ConnectionManager.removeConnectionsForBrick store brickId =
      ((store.filter (fun p =>
          decide (p.2.brick1Id = brickId ∨ p.2.brick2Id = brickId))).map
        (fun p => p.2),
       store.filter (fun p =>
          !decide (p.2.brick1Id = brickId ∨ p.2.brick2Id = brickId))) := by
  induction store with
  | nil => rfl
  | cons hd tl ih =>
    obtain ⟨k, conn⟩ := hd
    by_cases h : conn.brick1Id = brickId ∨ conn.brick2Id = brickId
    · rcases h with h1 | h2
      · simp [ConnectionManager.removeConnectionsForBrick, List.filter_cons,
          h1, ih]
      · simp [ConnectionManager.removeConnectionsForBrick, List.filter_cons,
          h2, ih]
    · obtain ⟨h1, h2⟩ := not_or.mp h
      simp [ConnectionManager.removeConnectionsForBrick, List.filter_cons,
        h1, h2, ih]

/-- **C1 (code bug exhibit).** Feeding the same candidate pair (a, b) to
`createConnections` twice stores two connections for the unordered pair:
the duplicate check looks the canonical pair key up in a map keyed by
connection uuids, so it never fires. -/
theorem createConnections_duplicate_pair :
    ((ConnectionManager.createConnections demoUuidGen 0 1 [demoCandidate]
          (ConnectionManager.createConnections demoUuidGen 0 0 [demoCandidate]
            []).2).2.countP
        (fun p => decide (p.2.brick1Id = "a") && decide (p.2.brick2Id = "b"))) =
      2 := by decide

/-- The bounding box only reads the definition id, the position and the
yaw. -/
theorem getBrickBoundingBox_congr (T : NumOracle)
    (r : List (String × BrickDefinition)) (b1 b2 : BrickInstance)
    (hdef : b1.definitionId = b2.definitionId)
    (hpos : b1.position = b2.position) (hrot : b1.rotation.y = b2.rotation.y) :
    getBrickBoundingBox T r b1 = getBrickBoundingBox T r b2 := by
  unfold getBrickBoundingBox
  rw [hdef, hpos, hrot]

/-- A lookup miss yields no bounding box. -/
theorem getBrickBoundingBox_none (T : NumOracle)
    (r : List (String × BrickDefinition)) (b : BrickInstance)
    (h : BrickRegistry.get r b.definitionId = none) :
    getBrickBoundingBox T r b = none := by
  unfold getBrickBoundingBox
  rw [h]

/-- **C8.** Two placed parts with known definitions whose bounding boxes
merely touch face-to-face (equal boundary coordinate on some axis) never
collide: `boxesOverlap` demands interpenetration beyond the tolerance
margin on all three axes. -/
theorem checkCollision_face_touching_false (T : NumOracle)
    (r : List (String × BrickDefinition)) (a b : BrickInstance)
    (boxA boxB : BoundingBox)
    (ha : getBrickBoundingBox T r a = some boxA)
    (hb : getBrickBoundingBox T r b = some boxB)
    (htouch : boxA.maxX = boxB.minX ∨ boxB.maxX = boxA.minX ∨
      boxA.maxY = boxB.minY ∨ boxB.maxY = boxA.minY ∨
      boxA.maxZ = boxB.minZ ∨ boxB.maxZ = boxA.minZ) :
    checkCollision T r
      { definitionId := a.definitionId, position := a.position
        rotation := some a.rotation } [b] none = false := by
  have hbox :
      getBrickBoundingBox T r
        { id := "temp", definitionId := a.definitionId
          position := a.position, rotation := a.rotation, colorId := 0
          isSelected := false, isLocked := false, isGhost := false
          connections := [], isStatic := false } = some boxA := by
    rw [getBrickBoundingBox_congr T r
      { id := "temp", definitionId := a.definitionId
        position := a.position, rotation := a.rotation, colorId := 0
        isSelected := false, isLocked := false, isGhost := false
        connections := [], isStatic := false } a rfl rfl rfl]
    exact ha
  have hov : boxesOverlap boxA boxB (1/10) = false := by
    unfold boxesOverlap
    rw [decide_eq_false_iff_not]
    rintro ⟨h1, h2, h3, h4, h5, h6⟩
    rcases htouch with ht | ht | ht | ht | ht | ht <;> linarith
  simp only [checkCollision, Option.getD_some]
  rw [hbox]
  show checkCollisionAux T r boxA [b] none = false
  simp only [checkCollisionAux]
  rw [if_neg (by simp : ¬ (none : Option String) = some b.id), hb]
  show (if boxesOverlap boxA boxB (1/10) then true
    else checkCollisionAux T r boxA [] none) = false
  rw [hov]
  simp [checkCollisionAux]

/-- Witness for C8: two 1×1 bricks whose centers are exactly one 8mm stud
spacing apart share the `x = 4` face and do not collide. -/
theorem checkCollision_face_touching_false_witness :
    getBrickBoundingBox oracle0 BrickRegistry.defaultRegistry demoA =
        some demoBoxA ∧
      getBrickBoundingBox oracle0 BrickRegistry.defaultRegistry demoC =
        some demoBoxC ∧
      demoBoxA.maxX = demoBoxC.minX ∧
      checkCollision oracle0 BrickRegistry.defaultRegistry
        { definitionId := demoA.definitionId, position := demoA.position
          rotation := some demoA.rotation } [demoC] none = false :=
  ⟨by decide, by decide, by decide,
    checkCollision_face_touching_false oracle0 BrickRegistry.defaultRegistry
      demoA demoC demoBoxA demoBoxC (by decide) (by decide)
      (Or.inl (by decide))⟩

/-- A lookup miss makes `exportBrick` skip the part. -/
theorem exportBrick_none_of_unknown (T : NumOracle)
    (r : List (String × BrickDefinition)) (b : BrickData)
    (h : BrickRegistry.get r b.definitionId = none) :
    LDrawExporter.exportBrick T r b = none := by
  unfold LDrawExporter.exportBrick LDrawExporter.exportBrickParts
  rw [h]
  rfl

/-- The exporter's body lines are unchanged by dropping the parts whose
definition id misses the registry. -/
theorem filterMap_exportBrick_filter (T : NumOracle)
    (r : List (String × BrickDefinition)) (bricks : List BrickData) :
    bricks.filterMap (LDrawExporter.exportBrick T r) =
      (bricks.filter
        (fun b => (BrickRegistry.get r b.definitionId).isSome)).filterMap
        (LDrawExporter.exportBrick T r) := by
  induction bricks with
  | nil => rfl
  | cons hd tl ih =>
    cases hg : BrickRegistry.get r hd.definitionId with
    | none =>
      rw [List.filterMap_cons, exportBrick_none_of_unknown T r hd hg,
        List.filter_cons]
      simp [hg, ih]
    | some d =>
      rw [List.filterMap_cons, List.filter_cons]
      simp only [hg, Option.isSome_some, if_pos, List.filterMap_cons]
      rw [ih]

/-- **C9.** A part-definition lookup miss is a recoverable per-item
condition: export drops exactly the unknown parts and still produces the
rest of the file, `checkCollision` returns false for an unknown candidate
and skips unknown existing parts, and the snap helpers yield empty
connection-point lists for an unknown part. -/
theorem unknown_definition_recoverable :
    (∀ (T : NumOracle) (r : List (String × BrickDefinition))
        (bricks : List BrickData) (modelName : String),
        LDrawExporter.exportModel T r bricks modelName =
          LDrawExporter.exportModel T r
            (bricks.filter
              (fun b => (BrickRegistry.get r b.definitionId).isSome))
            modelName) ∧
    (∀ (T : NumOracle) (r : List (String × BrickDefinition))
        (cand : CollisionCandidate) (existing : List BrickInstance)
        (ex : Option String), BrickRegistry.get r cand.definitionId = none →
        checkCollision T r cand existing ex = false) ∧
    (∀ (T : NumOracle) (r : List (String × BrickDefinition))
        (cand : CollisionCandidate) (e : BrickInstance)
        (rest : List BrickInstance) (ex : Option String),
        BrickRegistry.get r e.definitionId = none →
        checkCollision T r cand (e :: rest) ex =
          checkCollision T r cand rest ex) ∧
    (∀ (T : NumOracle) (r : List (String × BrickDefinition))
        (b : BrickInstance), BrickRegistry.get r b.definitionId = none →
        getBrickStudPositions T r b = [] ∧
          getBrickAntiStudPositions T r b = []) := by
  refine ⟨?_, ?_, ?_, ?_⟩
  · intro T r bricks modelName
    unfold LDrawExporter.exportModel
    rw [filterMap_exportBrick_filter T r bricks]
  · intro T r cand existing ex h
    simp only [checkCollision]
    rw [getBrickBoundingBox_none T r
      { id := "temp", definitionId := cand.definitionId
        position := cand.position
        rotation := cand.rotation.getD { x := 0, y := 0, z := 0 }
        colorId := 0, isSelected := false, isLocked := false
        isGhost := false, connections := [], isStatic := false } h]
  · intro T r cand e rest ex h
    simp only [checkCollision]
    cases hb : getBrickBoundingBox T r
        { id := "temp", definitionId := cand.definitionId
          position := cand.position
          rotation := cand.rotation.getD { x := 0, y := 0, z := 0 }
          colorId := 0, isSelected := false, isLocked := false
          isGhost := false, connections := [], isStatic := false } with
    | none => rfl
    | some nb =>
      show checkCollisionAux T r nb (e :: rest) ex =
        checkCollisionAux T r nb rest ex
      by_cases hex : ex = some e.id
      · simp [checkCollisionAux, hex]
      · simp [checkCollisionAux, hex, getBrickBoundingBox_none T r e h]
  · intro T r b h
    constructor
    · unfold getBrickStudPositions
      rw [h]
    · unfold getBrickAntiStudPositions
      rw [h]

/-- Witness for C9 at a lookup miss (`no_such_part`). -/
theorem unknown_definition_recoverable_witness :
    BrickRegistry.get BrickRegistry.defaultRegistry "no_such_part" = none ∧
      LDrawExporter.exportModel oracle0 BrickRegistry.defaultRegistry
          [badBrickData, brick2x4At0] "Untitled" =
        LDrawExporter.exportModel oracle0 BrickRegistry.defaultRegistry
          ([badBrickData, brick2x4At0].filter
            (fun b =>
              (BrickRegistry.get BrickRegistry.defaultRegistry
                b.definitionId).isSome)) "Untitled" ∧
      checkCollision oracle0 BrickRegistry.defaultRegistry
        { definitionId := "no_such_part", position := { x := 0, y := 0, z := 0 }
          rotation := none } [demoA] none = false ∧
      checkCollision oracle0 BrickRegistry.defaultRegistry
          { definitionId := "brick_1x1", position := { x := 0, y := 0, z := 0 }
            rotation := none } [badInstance, demoC] none =
        checkCollision oracle0 BrickRegistry.defaultRegistry
          { definitionId := "brick_1x1", position := { x := 0, y := 0, z := 0 }
            rotation := none } [demoC] none ∧
      getBrickStudPositions oracle0 BrickRegistry.defaultRegistry
          badInstance = [] ∧
      getBrickAntiStudPositions oracle0 BrickRegistry.defaultRegistry
        badInstance = [] :=
  ⟨by decide,
    unknown_definition_recoverable.1 oracle0 BrickRegistry.defaultRegistry
      [badBrickData, brick2x4At0] "Untitled",
    unknown_definition_recoverable.2.1 oracle0 BrickRegistry.defaultRegistry
      { definitionId := "no_such_part", position := { x := 0, y := 0, z := 0 }
        rotation := none } [demoA] none (by decide),
    unknown_definition_recoverable.2.2.1 oracle0 BrickRegistry.defaultRegistry
      { definitionId := "brick_1x1", position := { x := 0, y := 0, z := 0 }
        rotation := none } badInstance [demoC] none (by decide),
    (unknown_definition_recoverable.2.2.2 oracle0 BrickRegistry.defaultRegistry
      badInstance (by decide)).1,
    (unknown_definition_recoverable.2.2.2 oracle0 BrickRegistry.defaultRegistry
      badInstance (by decide)).2⟩

/-- Every connected brick id is one of the connection endpoints. -/
theorem mem_endpointIds_of_mem_getConnectedBrickIds
    (store : ConnectionManager.Store) (a b : String)
    (hb : b ∈ ConnectionManager.getConnectedBrickIds store a) :
    b ∈ endpointIds store := by
  unfold ConnectionManager.getConnectedBrickIds
    ConnectionManager.getConnectionsForBrick
    ConnectionManager.getAllConnections at hb
  rw [List.mem_map] at hb
  obtain ⟨c, hc, hbc⟩ := hb
  rw [List.mem_filter] at hc
  obtain ⟨hcs, _⟩ := hc
  rw [List.mem_map] at hcs
  obtain ⟨p, hp, hpc⟩ := hcs
  unfold endpointIds
  rw [List.mem_flatMap]
  refine ⟨p, hp, ?_⟩
  subst hpc
  by_cases h1 : p.2.brick1Id = a
  · rw [if_pos h1] at hbc
    simp [← hbc]
  · rw [if_neg h1] at hbc
    simp [← hbc]

/-- A brick has at most one connected id per stored connection. -/
theorem length_getConnectedBrickIds_le (store : ConnectionManager.Store)
    (a : String) :
    (ConnectionManager.getConnectedBrickIds store a).length ≤ store.length := by
  unfold ConnectionManager.getConnectedBrickIds
    ConnectionManager.getConnectionsForBrick
    ConnectionManager.getAllConnections
  rw [List.length_map]
  exact le_trans (List.length_filter_le _ _) (le_of_eq (List.length_map _ _))

/-- The endpoint list has two entries per stored connection. -/
theorem length_endpointIds (store : ConnectionManager.Store) :
    (endpointIds store).length = 2 * store.length := by
  unfold endpointIds
  induction store with
  | nil => rfl
  | cons hd tl ih =>
    rw [List.flatMap_cons, List.length_append, ih]
    simp only [List.length_cons, List.length_nil]
    omega

/-- Filtering with a stronger predicate keeps no more elements. -/
theorem length_filter_le_filter_of_imp {α : Type} (l : List α)
    (p q : α → Bool) (h : ∀ x, p x = true → q x = true) :
    (l.filter p).length ≤ (l.filter q).length := by
  induction l with
  | nil => exact Nat.le_refl 0
  | cons a t ih =>
    rw [List.filter_cons, List.filter_cons]
    by_cases hp : p a = true
    · rw [if_pos hp, if_pos (h a hp)]
      simpa using ih
    · rw [if_neg hp]
      by_cases hq : q a = true
      · rw [if_pos hq]
        exact le_trans ih (by simp)
      · rw [if_neg hq]
        exact ih

/-- Marking a fresh element of `U` as visited strictly shrinks the
unvisited part of `U`. -/
theorem length_filter_not_mem_append_lt (U visited : List String)
    (u : String) (hu : u ∈ U) (hnv : u ∉ visited) :
    (U.filter (fun x => decide (x ∉ visited ++ [u]))).length + 1 ≤
      (U.filter (fun x => decide (x ∉ visited))).length := by
  have himp : ∀ x : String, decide (x ∉ visited ++ [u]) = true →
      decide (x ∉ visited) = true := by
    intro x hx
    simp only [decide_eq_true_eq] at hx ⊢
    exact fun hmem => hx (List.mem_append_left _ hmem)
  induction U with
  | nil => cases hu
  | cons a t ih =>
    rw [List.filter_cons, List.filter_cons]
    by_cases ha : a = u
    · subst ha
      rw [if_neg (by simp), if_pos (by simpa using hnv)]
      rw [List.length_cons]
      exact Nat.succ_le_succ
        (length_filter_le_filter_of_imp t _ _ himp)
    · have hut : u ∈ t := by
        rcases List.mem_cons.mp hu with h1 | h1
        · exact absurd h1.symm ha
        · exact h1
      by_cases hpa : (decide (a ∉ visited ++ [u])) = true
      · rw [if_pos hpa, if_pos (himp a hpa)]
        rw [List.length_cons, List.length_cons]
        exact Nat.succ_le_succ (ih hut)
      · rw [if_neg hpa]
        by_cases hqa : (decide (a ∉ visited)) = true
        · rw [if_pos hqa, List.length_cons]
          exact le_trans (ih hut) (Nat.le_succ _)
        · rw [if_neg hqa]
          exact ih hut

/-- Soundness of the breadth-first traversal: whatever fuel is given,
everything it visits is reachable from the start over the connection
adjacency, provided queue and visited start out reachable. -/
theorem findConnectedGroupAux_sound (store : ConnectionManager.Store)
    (start : String) :
    ∀ (fuel : ℕ) (queue visited : List String),
      (∀ q ∈ queue, connReach store start q) →
      (∀ v ∈ visited, connReach store start v) →
      ∀ x ∈ ConnectionManager.findConnectedGroupAux store fuel queue visited,
        connReach store start x := by
  intro fuel
  induction fuel with
  | zero =>
    intro queue visited hq hv x hx
    simp only [ConnectionManager.findConnectedGroupAux] at hx
    exact hv x hx
  | succ n ih =>
    intro queue visited hq hv x hx
    cases queue with
    | nil =>
      simp only [ConnectionManager.findConnectedGroupAux] at hx
      exact hv x hx
    | cons c rest =>
      simp only [ConnectionManager.findConnectedGroupAux] at hx
      by_cases hc : c ∈ visited
      · rw [if_pos hc] at hx
        exact ih rest visited
          (fun q hq' => hq q (List.mem_cons_of_mem _ hq')) hv x hx
      · rw [if_neg hc] at hx
        refine ih _ _ ?_ ?_ x hx
        · intro q hq'
          rcases List.mem_append.mp hq' with h | h
          · exact hq q (List.mem_cons_of_mem _ h)
          · have hadj : q ∈ ConnectionManager.getConnectedBrickIds store c :=
              List.mem_of_mem_filter h
            exact Relation.ReflTransGen.tail
              (hq c (List.mem_cons_self _ _)) hadj
        · intro v hv'
          rcases List.mem_append.mp hv' with h | h
          · exact hv v h
          · rw [List.mem_singleton] at h
            subst h
            exact hq v (List.mem_cons_self _ _)

/-- Completeness of the breadth-first traversal: with enough fuel for the
queue plus one full visit of every never-visited endpoint, the result
contains the visited list and queue and is closed under the connection
adjacency. -/
theorem findConnectedGroupAux_complete (store : ConnectionManager.Store)
    (U : List String)
    (hU : ∀ (a b : String),
      b ∈ ConnectionManager.getConnectedBrickIds store a → b ∈ U) :
    ∀ (fuel : ℕ) (queue visited : List String),
      (∀ q ∈ queue, q ∈ U) →
      (∀ v ∈ visited, ∀ n ∈ ConnectionManager.getConnectedBrickIds store v,
        n ∈ visited ∨ n ∈ queue) →
      queue.length +
          (U.filter (fun x => decide (x ∉ visited))).length *
            (store.length + 1) ≤ fuel →
      (∀ v ∈ visited,
        v ∈ ConnectionManager.findConnectedGroupAux store fuel queue visited) ∧
      (∀ q ∈ queue,
        q ∈ ConnectionManager.findConnectedGroupAux store fuel queue visited) ∧
      (∀ v ∈ ConnectionManager.findConnectedGroupAux store fuel queue visited,
        ∀ n ∈ ConnectionManager.getConnectedBrickIds store v,
          n ∈ ConnectionManager.findConnectedGroupAux store fuel queue
            visited) := by
  intro fuel
  induction fuel with
  | zero =>
    intro queue visited hqU hcl hfuel
    have hq0 : queue = [] := by
      cases queue with
      | nil => rfl
      | cons c rest => simp at hfuel
    subst hq0
    simp only [ConnectionManager.findConnectedGroupAux]
    refine ⟨fun v hv => hv, fun q hq => absurd hq (List.not_mem_nil q), ?_⟩
    intro v hv n hn
    exact (hcl v hv n hn).resolve_right (List.not_mem_nil n)
  | succ m ih =>
    intro queue visited hqU hcl hfuel
    cases queue with
    | nil =>
      simp only [ConnectionManager.findConnectedGroupAux]
      exact ⟨fun v hv => hv, fun q hq => absurd hq (List.not_mem_nil q),
        fun v hv n hn => (hcl v hv n hn).resolve_right (List.not_mem_nil n)⟩
    | cons c rest =>
      simp only [ConnectionManager.findConnectedGroupAux]
      by_cases hc : c ∈ visited
      · rw [if_pos hc]
        have hres := ih rest visited
          (fun q hq => hqU q (List.mem_cons_of_mem _ hq))
          (fun v hv n hn => by
            rcases hcl v hv n hn with h | h
            · exact Or.inl h
            · rcases List.mem_cons.mp h with h1 | h1
              · exact Or.inl (h1 ▸ hc)
              · exact Or.inr h1)
          (by
            simp only [List.length_cons] at hfuel
            omega)
        refine ⟨hres.1, ?_, hres.2.2⟩
        intro q hq
        rcases List.mem_cons.mp hq with h1 | h1
        · exact h1 ▸ hres.1 c hc
        · exact hres.2.1 q h1
      · rw [if_neg hc]
        have hcU : c ∈ U := hqU c (List.mem_cons_self _ _)
        have hpush_le :
            ((ConnectionManager.getConnectedBrickIds store c).filter
              (fun id => !(visited.contains id))).length ≤ store.length :=
          le_trans (List.length_filter_le _ _)
            (length_getConnectedBrickIds_le store c)
        have hcnt := length_filter_not_mem_append_lt U visited c hcU hc
        have hexp :
            (U.filter (fun x => decide (x ∉ visited ++ [c]))).length *
                (store.length + 1) + (store.length + 1) ≤
              (U.filter (fun x => decide (x ∉ visited))).length *
                (store.length + 1) := by
          calc (U.filter (fun x => decide (x ∉ visited ++ [c]))).length *
                  (store.length + 1) + (store.length + 1) =
                ((U.filter (fun x => decide (x ∉ visited ++ [c]))).length + 1) *
                  (store.length + 1) := by ring
            _ ≤ (U.filter (fun x => decide (x ∉ visited))).length *
                  (store.length + 1) := Nat.mul_le_mul_right _ hcnt
        have hfuel' : (rest ++
              (ConnectionManager.getConnectedBrickIds store c).filter
                (fun id => !(visited.contains id))).length +
            (U.filter (fun x => decide (x ∉ visited ++ [c]))).length *
              (store.length + 1) ≤ m := by
          rw [List.length_append]
          simp only [List.length_cons] at hfuel
          omega
        have hres := ih
          (rest ++ (ConnectionManager.getConnectedBrickIds store c).filter
            (fun id => !(visited.contains id)))
          (visited ++ [c])
          (fun q hq => by
            rcases List.mem_append.mp hq with h | h
            · exact hqU q (List.mem_cons_of_mem _ h)
            · exact hU c q (List.mem_of_mem_filter h))
          (fun v hv n hn => by
            rcases List.mem_append.mp hv with h | h
            · rcases hcl v h n hn with h2 | h2
              · exact Or.inl (List.mem_append_left _ h2)
              · rcases List.mem_cons.mp h2 with h3 | h3
                · exact Or.inl (List.mem_append_right _ (by simp [h3]))
                · exact Or.inr (List.mem_append_left _ h3)
            · rw [List.mem_singleton] at h
              subst h
              by_cases hnv : n ∈ visited
              · exact Or.inl (List.mem_append_left _ hnv)
              · refine Or.inr (List.mem_append_right _ ?_)
                rw [List.mem_filter]
                exact ⟨hn, by simpa using hnv⟩)
          hfuel'
        refine ⟨?_, ?_, hres.2.2⟩
        · intro v hv
          exact hres.1 v (List.mem_append_left _ hv)
        · intro q hq
          rcases List.mem_cons.mp hq with h1 | h1
          · exact h1 ▸ hres.1 c (List.mem_append_right _ (by simp))
          · exact hres.2.1 q (List.mem_append_left _ h1)

/-- `findConnectedGroup` computes exactly the connected component of the
start brick under the stored connections. -/
theorem mem_findConnectedGroup_iff (store : ConnectionManager.Store)
    (start x : String) :
    x ∈ ConnectionManager.findConnectedGroup store start ↔
      connReach store start x := by
  constructor
  · intro hx
    exact findConnectedGroupAux_sound store start _ [start] []
      (fun q hq => by
        rw [List.mem_singleton] at hq
        subst hq
        exact Relation.ReflTransGen.refl)
      (fun v hv => absurd hv (List.not_mem_nil v)) x hx
  · intro hreach
    have hU : ∀ (a b : String),
        b ∈ ConnectionManager.getConnectedBrickIds store a →
        b ∈ start :: endpointIds store :=
      fun a b hb => List.mem_cons_of_mem _
        (mem_endpointIds_of_mem_getConnectedBrickIds store a b hb)
    have hfil : ((start :: endpointIds store).filter
        (fun x => decide (x ∉ ([] : List String)))) =
        start :: endpointIds store := by
      apply List.filter_eq_self.mpr
      intro a ha
      simp
    have hfuel : ([start] : List String).length +
        ((start :: endpointIds store).filter
          (fun x => decide (x ∉ ([] : List String)))).length *
          (store.length + 1) ≤
        (1 + 2 * store.length) * (store.length + 1) + 1 := by
      rw [hfil]
      simp only [List.length_cons, length_endpointIds, List.length_nil]
      ring_nf
      omega
    have hres := findConnectedGroupAux_complete store
      (start :: endpointIds store) hU
      ((1 + 2 * store.length) * (store.length + 1) + 1) [start] []
      (fun q hq => by
        rw [List.mem_singleton] at hq
        subst hq
        exact List.mem_cons_self _ _)
      (fun v hv => absurd hv (List.not_mem_nil v))
      hfuel
    unfold ConnectionManager.findConnectedGroup
    induction hreach with
    | refl => exact hres.2.1 start (List.mem_singleton_self start)
    | tail hab hbc ihx => exact hres.2.2 _ ihx _ hbc

/-- **C7.** `isGrounded` returns true exactly when the connected
component of the brick (the reflexive-transitive closure of the
connection adjacency, computed by the breadth-first traversal and
including the brick itself) contains a part whose Y position is ≤ 0; in
particular a part stacked on and connected to a part at Y = 0 is
grounded, and removing that connection makes it not grounded. -/
theorem isGrounded_iff_component_reaches_ground :
    (∀ (store : ConnectionManager.Store) (brickId : String)
        (bricks : List (String × BrickInstance)),
        ConnectionManager.isGrounded store brickId bricks = true ↔
          ∃ id, connReach store brickId id ∧
            ∃ b, mapGet bricks id = some b ∧ b.position.y ≤ 0) ∧
      ConnectionManager.isGrounded demoStore "B" demoBricks = true ∧
      ConnectionManager.isGrounded
        (ConnectionManager.removeConnectionsForBrick demoStore "A").2 "B"
        demoBricks = false := by
  refine ⟨?_, by decide, by decide⟩
  intro store brickId bricks
  unfold ConnectionManager.isGrounded
  rw [List.any_eq_true]
  constructor
  · rintro ⟨id, hid, hcond⟩
    refine ⟨id, (mem_findConnectedGroup_iff store brickId id).mp hid, ?_⟩
    cases hga : mapGet bricks id with
    | none =>
      rw [hga] at hcond
      exact absurd hcond (by simp)
    | some b =>
      rw [hga] at hcond
      exact ⟨b, rfl, by simpa using hcond⟩
  · rintro ⟨id, hreach, b, hb, hy⟩
    refine ⟨id, (mem_findConnectedGroup_iff store brickId id).mpr hreach, ?_⟩
    rw [hb]
    simpa using hy

/-- Stud world positions come from the registry definition's stud
points. -/
theorem mem_getBrickStudPositions (T : NumOracle)
    (r : List (String × BrickDefinition)) (e : BrickInstance) (s : Vec3)
    (hs : s ∈ getBrickStudPositions T r e) :
    ∃ dd, BrickRegistry.get r e.definitionId = some dd ∧
      ∃ p ∈ dd.connectionPoints, p.type = ConnectionPointType.stud ∧
        s = snapConnectionWorldPosition T e p := by
  unfold getBrickStudPositions at hs
  cases hg : BrickRegistry.get r e.definitionId with
  | none =>
    rw [hg] at hs
    exact absurd hs (List.not_mem_nil s)
  | some dd =>
    rw [hg] at hs
    simp only [List.mem_map, List.mem_filter, beq_iff_eq] at hs
    obtain ⟨p, ⟨hp, hptype⟩, hps⟩ := hs
    exact ⟨dd, rfl, p, hp, hptype, hps.symm⟩

/-- Anti-stud world positions come from the registry definition's
anti-stud points. -/
theorem mem_getBrickAntiStudPositions (T : NumOracle)
    (r : List (String × BrickDefinition)) (e : BrickInstance) (s : Vec3)
    (hs : s ∈ getBrickAntiStudPositions T r e) :
    ∃ dd, BrickRegistry.get r e.definitionId = some dd ∧
      ∃ p ∈ dd.connectionPoints, p.type = ConnectionPointType.anti_stud ∧
        s = snapConnectionWorldPosition T e p := by
  unfold getBrickAntiStudPositions at hs
  cases hg : BrickRegistry.get r e.definitionId with
  | none =>
    rw [hg] at hs
    exact absurd hs (List.not_mem_nil s)
  | some dd =>
    rw [hg] at hs
    simp only [List.mem_map, List.mem_filter, beq_iff_eq] at hs
    obtain ⟨p, ⟨hp, hptype⟩, hps⟩ := hs
    exact ⟨dd, rfl, p, hp, hptype, hps.symm⟩

/-- An invariant preserved by every step of a fold holds of its result. -/
theorem foldl_invariant {α σ : Type} (P : σ → Prop) (f : σ → α → σ)
    (l : List α) (s : σ) (h0 : P s)
    (hstep : ∀ st a, a ∈ l → P st → P (f st a)) : P (l.foldl f s) := by
  induction l generalizing s with
  | nil => exact h0
  | cons hd tl ih =>
    exact ih (f s hd) (hstep s hd (List.mem_cons_self _ _) h0)
      (fun st a ha hP => hstep st a (List.mem_cons_of_mem _ ha) hP)

/-- A top-pass step either keeps the state or installs the snap aligned
on the item's stud, connected to the item's brick. -/
theorem snapStepTop_eq_or (T : NumOracle)
    (r : List (String × BrickDefinition)) (newBrickDef : BrickDefinition)
    (rough : Vec3) (sd ry : ℚ) (existing : List BrickInstance)
    (st : SnapState) (item : BrickInstance × Vec3 × ConnectionPoint) :
    snapStepTop T r newBrickDef rough sd ry existing st item = st ∨
      ∃ hd, snapStepTop T r newBrickDef rough sd ry existing st item =
        { best := { position := Vec3.mk (item.2.1.x - (rotatePointY T item.2.2.position.x item.2.2.position.z ry).1) (item.2.1.y - item.2.2.position.y) (item.2.1.z - (rotatePointY T item.2.2.position.x item.2.2.position.z ry).2), isValid := true, connectedBrickId := some item.1.id, connectionType := some SnapSide.top }, bestDistance := some hd } := by
  unfold snapStepTop
  dsimp only
  split
  · exact Or.inl rfl
  · split
    · split
      · exact Or.inr ⟨_, rfl⟩
      · exact Or.inl rfl
    · exact Or.inl rfl

/-- A bottom-pass step either keeps the state or installs the snap one
stud height under the item's anti-stud, connected to the item's brick. -/
theorem snapStepBottom_eq_or (T : NumOracle) (rough : Vec3) (sd ry : ℚ)
    (st : SnapState) (item : BrickInstance × Vec3 × ConnectionPoint) :
    snapStepBottom T rough sd ry st item = st ∨
      ∃ hd, snapStepBottom T rough sd ry st item =
        { best := { position := Vec3.mk (item.2.1.x - (rotatePointY T item.2.2.position.x item.2.2.position.z ry).1) (item.2.1.y - item.2.2.position.y - LEGO.STUD_HEIGHT) (item.2.1.z - (rotatePointY T item.2.2.position.x item.2.2.position.z ry).2), isValid := true, connectedBrickId := some item.1.id, connectionType := some SnapSide.bottom }, bestDistance := some hd } := by
  unfold snapStepBottom
  dsimp only
  split
  · exact Or.inl rfl
  · split
    · exact Or.inr ⟨_, rfl⟩
    · exact Or.inl rfl

/-- A top-pass step preserves the snap invariant: the installed snap
sits exactly on the connected brick's top face. -/
theorem snapStepTop_preserves (T : NumOracle)
    (r : List (String × BrickDefinition)) (newBrickDef : BrickDefinition)
    (rough : Vec3) (sd ry : ℚ) (existing : List BrickInstance)
    (hstd_new : StandardDef newBrickDef)
    (hstd : ∀ e ∈ existing, StandardLookup r e.definitionId)
    (st : SnapState) (item : BrickInstance × Vec3 × ConnectionPoint)
    (hitem : item ∈ existing.flatMap (fun e =>
      (getBrickStudPositions T r e).flatMap (fun s =>
        (newBrickDef.connectionPoints.filter
          (fun p => p.type == ConnectionPointType.anti_stud)).map
          (fun a => (e, s, a)))))
    (hinv : SnapInv r newBrickDef existing st) :
    SnapInv r newBrickDef existing
      (snapStepTop T r newBrickDef rough sd ry existing st item) := by
  rcases snapStepTop_eq_or T r newBrickDef rough sd ry existing st item with
    h | ⟨hd, h⟩
  · rw [h]; exact hinv
  · rw [h]
    intro _
    rw [List.mem_flatMap] at hitem
    obtain ⟨e, he, hitem⟩ := hitem
    rw [List.mem_flatMap] at hitem
    obtain ⟨s, hs, hitem⟩ := hitem
    rw [List.mem_map] at hitem
    obtain ⟨a, ha, heq⟩ := hitem
    obtain ⟨dd, hdd, p, hp, hptype, hsw⟩ :=
      mem_getBrickStudPositions T r e s hs
    rw [List.mem_filter] at ha
    have hatype : a.type = ConnectionPointType.anti_stud := by
      simpa using ha.2
    have hay : a.position.y = 0 := (hstd_new a ha.1).2 hatype
    have hpy : p.position.y =
        (dd.dimensions.height : ℚ) * LEGO.PLATE_HEIGHT := by
      have hl := hstd e he
      unfold StandardLookup at hl
      rw [hdd] at hl
      exact (hl p hp).1 hptype
    refine ⟨e, he, ?_, dd, hdd, Or.inl ?_⟩
    · rw [← heq]
    · rw [← heq]
      show s.y - a.position.y = _
      rw [hsw]
      show e.position.y + p.position.y - a.position.y = _
      rw [hpy, hay]
      ring
  
/-- A bottom-pass step preserves the snap invariant: the installed snap
sits one new-part height plus one stud height under the connected
brick's base. -/
theorem snapStepBottom_preserves (T : NumOracle)
    (r : List (String × BrickDefinition)) (newBrickDef : BrickDefinition)
    (rough : Vec3) (sd ry : ℚ) (existing : List BrickInstance)
    (hstd_new : StandardDef newBrickDef)
    (hstd : ∀ e ∈ existing, StandardLookup r e.definitionId)
    (st : SnapState) (item : BrickInstance × Vec3 × ConnectionPoint)
    (hitem : item ∈ existing.flatMap (fun e =>
      (getBrickAntiStudPositions T r e).flatMap (fun s =>
        (newBrickDef.connectionPoints.filter
          (fun p => p.type == ConnectionPointType.stud)).map
          (fun a => (e, s, a)))))
    (hinv : SnapInv r newBrickDef existing st) :
    SnapInv r newBrickDef existing
      (snapStepBottom T rough sd ry st item) := by
  rcases snapStepBottom_eq_or T rough sd ry st item with h | ⟨hd, h⟩
  · rw [h]; exact hinv
  · rw [h]
    intro _
    rw [List.mem_flatMap] at hitem
    obtain ⟨e, he, hitem⟩ := hitem
    rw [List.mem_flatMap] at hitem
    obtain ⟨s, hs, hitem⟩ := hitem
    rw [List.mem_map] at hitem
    obtain ⟨a, ha, heq⟩ := hitem
    obtain ⟨dd, hdd, p, hp, hptype, hsw⟩ :=
      mem_getBrickAntiStudPositions T r e s hs
    rw [List.mem_filter] at ha
    have hatype : a.type = ConnectionPointType.stud := by
      simpa using ha.2
    have hay : a.position.y =
        (newBrickDef.dimensions.height : ℚ) * LEGO.PLATE_HEIGHT :=
      (hstd_new a ha.1).1 hatype
    have hpy : p.position.y = 0 := by
      have hl := hstd e he
      unfold StandardLookup at hl
      rw [hdd] at hl
      exact (hl p hp).2 hptype
    refine ⟨e, he, ?_, dd, hdd, Or.inr ?_⟩
    · rw [← heq]
    · rw [← heq]
      show s.y - a.position.y - LEGO.STUD_HEIGHT = _
      rw [hsw]
      show e.position.y + p.position.y - a.position.y - LEGO.STUD_HEIGHT = _
      rw [hpy, hay]
      ring

/-- The Y extent of a bounding box: from the brick's Y position up by its
definition's height, whatever the yaw. -/
theorem getBrickBoundingBox_y_fields (T : NumOracle)
    (r : List (String × BrickDefinition)) (b : BrickInstance)
    (d : BrickDefinition) (box : BoundingBox)
    (hd : BrickRegistry.get r b.definitionId = some d)
    (hb : getBrickBoundingBox T r b = some box) :
    box.minY = b.position.y ∧
      box.maxY = b.position.y +
        (d.dimensions.height : ℚ) * LEGO.PLATE_HEIGHT := by
  unfold getBrickBoundingBox at hb
  rw [hd] at hb
  simp only [Option.some.injEq] at hb
  rw [← hb]
  exact ⟨rfl, rfl⟩

/-- A candidate stacked exactly on an existing part's top face, or hung
exactly one stud height under its base, never collides with that part:
the boxes are separated (or merely touching) on the Y axis. -/
theorem checkCollision_y_separated (T : NumOracle)
    (r : List (String × BrickDefinition)) (candId : String) (pos : Vec3)
    (rot : Option Vec3) (newDef : BrickDefinition) (e : BrickInstance)
    (dd : BrickDefinition)
    (hcand : BrickRegistry.get r candId = some newDef)
    (hdd : BrickRegistry.get r e.definitionId = some dd)
    (hy : pos.y = e.position.y +
        (dd.dimensions.height : ℚ) * LEGO.PLATE_HEIGHT ∨
      pos.y = e.position.y -
        (newDef.dimensions.height : ℚ) * LEGO.PLATE_HEIGHT -
        LEGO.STUD_HEIGHT) :
    checkCollision T r
      { definitionId := candId, position := pos, rotation := rot } [e]
      none = false := by
  simp only [checkCollision]
  cases hnb : getBrickBoundingBox T r
      { id := "temp", definitionId := candId, position := pos
        rotation := rot.getD { x := 0, y := 0, z := 0 }, colorId := 0
        isSelected := false, isLocked := false, isGhost := false
        connections := [], isStatic := false } with
  | none => rfl
  | some nb =>
    show checkCollisionAux T r nb [e] none = false
    have hnbY := getBrickBoundingBox_y_fields T r
      { id := "temp", definitionId := candId, position := pos
        rotation := rot.getD { x := 0, y := 0, z := 0 }, colorId := 0
        isSelected := false, isLocked := false, isGhost := false
        connections := [], isStatic := false } newDef nb hcand hnb
    have hnb1 : nb.minY = pos.y := hnbY.1
    have hnb2 : nb.maxY = pos.y +
        (newDef.dimensions.height : ℚ) * LEGO.PLATE_HEIGHT := hnbY.2
    simp only [checkCollisionAux]
    rw [if_neg (by simp : ¬ (none : Option String) = some e.id)]
    cases heb : getBrickBoundingBox T r e with
    | none => simp [checkCollisionAux]
    | some eb =>
      have hebY := getBrickBoundingBox_y_fields T r e dd eb hdd heb
      have hSH : LEGO.STUD_HEIGHT = 8/5 := rfl
      have hov : boxesOverlap nb eb (1/10) = false := by
        unfold boxesOverlap
        rw [decide_eq_false_iff_not]
        rintro ⟨g1, g2, g3, g4, g5, g6⟩
        rcases hy with h | h
        · linarith [hnb1, hebY.2]
        · linarith [hnb2, hebY.1]
      show (if boxesOverlap nb eb (1/10) = true then true
        else checkCollisionAux T r nb [] none) = false
      rw [hov]
      simp [checkCollisionAux]

/-- **C2 (counterexample).** The claim fails as stated: with two
pairwise non-colliding 1×1 bricks stacked at the origin (`demoA` at the
ground, `demoB` on top), snapping a third 1×1 brick at rough position
(0, 9.6, 0) with the default snap distance returns `isValid = true` at
exactly `demoB`'s spot, where `checkCollision` against the same existing
set reports a collision. -/
theorem findSnapPosition_valid_can_collide :
    (findSnapPosition oracle0 BrickRegistry.defaultRegistry brickDef1x1
        { x := 0, y := 48/5, z := 0 } [demoA, demoB] 12 0).isValid = true ∧
      (findSnapPosition oracle0 BrickRegistry.defaultRegistry brickDef1x1
          { x := 0, y := 48/5, z := 0 } [demoA, demoB] 12 0).position =
        { x := 0, y := 48/5, z := 0 } ∧
      checkCollision oracle0 BrickRegistry.defaultRegistry
        { definitionId := "brick_1x1", position := demoA.position
          rotation := some demoA.rotation } [demoB] none = false ∧
      checkCollision oracle0 BrickRegistry.defaultRegistry
        { definitionId := "brick_1x1", position := demoB.position
          rotation := some demoB.rotation } [demoA] none = false ∧
      BrickRegistry.get BrickRegistry.defaultRegistry "brick_1x1" =
        some brickDef1x1 ∧
      checkCollision oracle0 BrickRegistry.defaultRegistry
        { definitionId := "brick_1x1"
          position := (findSnapPosition oracle0 BrickRegistry.defaultRegistry
            brickDef1x1 { x := 0, y := 48/5, z := 0 } [demoA, demoB] 12
            0).position
          rotation := some { x := 0, y := 0, z := 0 } } [demoA, demoB]
        none = true :=
  ⟨by decide, by decide, by decide, by decide, by decide, by decide⟩

/-- **C2 (amended).** A valid snap never collides with the part it is
reported as connected to — for standard parts (studs on the top face,
anti-studs at the base, as every registry part has) — though, as the
counterexample shows, it may still collide with other existing parts. -/
theorem findSnapPosition_valid_no_collision_with_connected
    (T : NumOracle) (r : List (String × BrickDefinition))
    (newBrickDef : BrickDefinition) (rough : Vec3)
    (existing : List BrickInstance) (sd ry : ℚ) (candId : String)
    (res : SnapResult)
    (hres : findSnapPosition T r newBrickDef rough existing sd ry = res)
    (hvalid : res.isValid = true)
    (hstd_new : StandardDef newBrickDef)
    (hstd : ∀ e ∈ existing, StandardLookup r e.definitionId)
    (hcand : BrickRegistry.get r candId = some newBrickDef) :
    ∃ e ∈ existing, res.connectedBrickId = some e.id ∧
      ∀ rot : Option Vec3, checkCollision T r
        { definitionId := candId, position := res.position, rotation := rot }
        [e] none = false := by
  have hfs : findSnapPosition T r newBrickDef rough existing sd ry =
      (List.foldl (snapStepBottom T rough sd ry)
        (List.foldl (snapStepTop T r newBrickDef rough sd ry existing)
          { best := { position := rough, isValid := false
                      connectedBrickId := none, connectionType := none }
            bestDistance := none }
          (existing.flatMap (fun e =>
            (getBrickStudPositions T r e).flatMap (fun s =>
              (newBrickDef.connectionPoints.filter
                (fun p => p.type == ConnectionPointType.anti_stud)).map
                (fun a => (e, s, a))))))
        (existing.flatMap (fun e =>
          (getBrickAntiStudPositions T r e).flatMap (fun s =>
            (newBrickDef.connectionPoints.filter
              (fun p => p.type == ConnectionPointType.stud)).map
              (fun a => (e, s, a)))))).best := rfl
  have h0 : SnapInv r newBrickDef existing
      { best := { position := rough, isValid := false
                  connectedBrickId := none, connectionType := none }
        bestDistance := none } :=
    fun hfalse => absurd hfalse (by simp)
  have h1 := foldl_invariant (SnapInv r newBrickDef existing)
    (snapStepTop T r newBrickDef rough sd ry existing)
    (existing.flatMap (fun e =>
      (getBrickStudPositions T r e).flatMap (fun s =>
        (newBrickDef.connectionPoints.filter
          (fun p => p.type == ConnectionPointType.anti_stud)).map
          (fun a => (e, s, a))))) _ h0
    (fun st a ha hP =>
      snapStepTop_preserves T r newBrickDef rough sd ry existing hstd_new
        hstd st a ha hP)
  have h2 := foldl_invariant (SnapInv r newBrickDef existing)
    (snapStepBottom T rough sd ry)
    (existing.flatMap (fun e =>
      (getBrickAntiStudPositions T r e).flatMap (fun s =>
        (newBrickDef.connectionPoints.filter
          (fun p => p.type == ConnectionPointType.stud)).map
          (fun a => (e, s, a))))) _ h1
    (fun st a ha hP =>
      snapStepBottom_preserves T r newBrickDef rough sd ry existing hstd_new
        hstd st a ha hP)
  have hFres : (List.foldl (snapStepBottom T rough sd ry)
      (List.foldl (snapStepTop T r newBrickDef rough sd ry existing)
        { best := { position := rough, isValid := false
                    connectedBrickId := none, connectionType := none }
          bestDistance := none }
        (existing.flatMap (fun e =>
          (getBrickStudPositions T r e).flatMap (fun s =>
            (newBrickDef.connectionPoints.filter
              (fun p => p.type == ConnectionPointType.anti_stud)).map
              (fun a => (e, s, a))))))
      (existing.flatMap (fun e =>
        (getBrickAntiStudPositions T r e).flatMap (fun s =>
          (newBrickDef.connectionPoints.filter
            (fun p => p.type == ConnectionPointType.stud)).map
            (fun a => (e, s, a)))))).best = res := by
    rw [← hfs]
    exact hres
  obtain ⟨e, he, hcid, dd, hdd, hy⟩ := h2 (by rw [hFres]; exact hvalid)
  rw [hFres] at hcid hy
  exact ⟨e, he, hcid, fun rot =>
    checkCollision_y_separated T r candId res.position rot newBrickDef e dd
      hcand hdd hy⟩

/-- Witness for the amended C2 at the counterexample scenario: the valid
snap connects to `demoA` and does not collide with `demoA` itself. -/
theorem findSnapPosition_valid_no_collision_with_connected_witness :
    (findSnapPosition oracle0 BrickRegistry.defaultRegistry brickDef1x1
        { x := 0, y := 48/5, z := 0 } [demoA, demoB] 12 0).isValid = true ∧
      StandardDef brickDef1x1 ∧
      (∀ e ∈ [demoA, demoB],
        StandardLookup BrickRegistry.defaultRegistry e.definitionId) ∧
      BrickRegistry.get BrickRegistry.defaultRegistry "brick_1x1" =
        some brickDef1x1 ∧
      ∃ e ∈ [demoA, demoB],
        (findSnapPosition oracle0 BrickRegistry.defaultRegistry brickDef1x1
            { x := 0, y := 48/5, z := 0 } [demoA, demoB] 12
            0).connectedBrickId = some e.id ∧
        ∀ rot : Option Vec3, checkCollision oracle0
          BrickRegistry.defaultRegistry
          { definitionId := "brick_1x1"
            position := (findSnapPosition oracle0
              BrickRegistry.defaultRegistry brickDef1x1
              { x := 0, y := 48/5, z := 0 } [demoA, demoB] 12 0).position
            rotation := rot } [e] none = false :=
  ⟨by decide, by decide, by decide, by decide,
    findSnapPosition_valid_no_collision_with_connected oracle0
      BrickRegistry.defaultRegistry brickDef1x1
      { x := 0, y := 48/5, z := 0 } [demoA, demoB] 12 0 "brick_1x1" _ rfl
      (by decide) (by decide) (by decide) (by decide)⟩
